import Mathlib

/-!
Verification development for the SWTOR combat-log parsing core.

The definitions below are a shallow embedding of the C++ sources
(`src/core/swtor_parser.cpp`, `src/core/swtor_parser.h`,
`src/time_cruncher_swtor.cpp`, `src/core/combat_state.cpp`,
`src/core/parse_manager.cpp`).  Conventions of the embedding:

* `std::string_view` / `std::string` are modelled as `List Char` (named `SV`);
  substring extraction `substr(pos, len)` becomes `sub s pos len`.
* machine integers are modelled as `Nat` / `Int`; where the C++ narrows or
  wraps (casts to `uint32_t`, `int32_t`, accumulation into `uint64_t` /
  `uint16_t` counters) the wrap is written out explicitly as `% 2 ^ w`.
* `float` / `double` values are modelled as `ℚ`.  The numeric text parsers
  (`std::from_chars` for floats, `strtod`) are modelled for plain decimal
  literals (optional sign, digits, optional fraction part), which is the
  grammar the log format uses; the exotic forms those C functions also accept
  (hex floats, exponents, infinities) are outside the log grammar and are not
  modelled.
* functions that fill an out-parameter and return `bool` are modelled as
  functions returning `Option`.
-/

set_option maxRecDepth 4000

namespace Swtor

/-- `std::string_view`, modelled as a list of characters. -/
abbrev SV := List Char

/-- `substr(pos, len)` on a string view. -/
def sub (s : SV) (pos len : Nat) : SV := (s.drop pos).take len

/-- `trim_ws` (swtor_parser.cpp:252): strip leading and trailing `' '`. -/
def trim_ws (sv : SV) : SV :=
  ((sv.dropWhile (· = ' ')).reverse.dropWhile (· = ' ')).reverse

/-- `sv.find(c)`: index of the first occurrence of `c`. -/
def findIdxOf (s : SV) (c : Char) : Option Nat := s.findIdx? (· = c)

/-- `sv.find(c, start)`: first occurrence of `c` at or after index `start`. -/
def findFrom (s : SV) (c : Char) (start : Nat) : Option Nat :=
  match (s.drop start).findIdx? (· = c) with
  | none => none
  | some i => some (start + i)

/-- `sv.rfind(c)`: index of the last occurrence of `c`. -/
def rfindIdxOf (s : SV) (c : Char) : Option Nat :=
  match s.reverse.findIdx? (· = c) with
  | none => none
  | some i => some (s.length - 1 - i)

/-- `sv.find_first_of(set)`: first index whose character satisfies `p`. -/
def findFirstOf (s : SV) (p : Char → Bool) : Option Nat := s.findIdx? p

/-- `split_once` (swtor_parser.cpp:256): split at the first occurrence of
`sep`; when absent the second component is empty. -/
def split_once (sv : SV) (sep : Char) : SV × SV :=
  match sv.findIdx? (· = sep) with
  | none => (sv, [])
  | some p => (sv.take p, sv.drop (p + 1))

/-- `strip_one` (swtor_parser.cpp:262): drop one leading `left` and one
trailing `right` if present. -/
def strip_one (sv : SV) (left right : Char) : SV :=
  let sv1 := match sv with
    | c :: rest => if c = left then rest else c :: rest
    | [] => []
  match sv1.getLast? with
  | some c => if c = right then sv1.dropLast else sv1
  | none => sv1

/-- Accumulate decimal digits (the loop bodies of `std::from_chars`). -/
def digitsToNat (ds : SV) : Nat := ds.foldl (fun a c => a * 10 + (c.toNat - 48)) 0

/-- `fast_to_u64` / `fast_parse_u64` (swtor_parser.cpp:275, 308): the whole
view must be decimal digits and the value must fit `uint64_t`. -/
def parseU64 (s : SV) : Option Nat :=
  if (!s.isEmpty && s.all Char.isDigit) = true ∧ digitsToNat s < 2 ^ 64 then
    some (digitsToNat s)
  else none

/-- `fast_to_u32` (swtor_parser.cpp:285). -/
def parseU32 (s : SV) : Option Nat :=
  if (!s.isEmpty && s.all Char.isDigit) = true ∧ digitsToNat s < 2 ^ 32 then
    some (digitsToNat s)
  else none

/-- `fast_to_i64` / `parse_signed` (swtor_parser.cpp:280, 313): optional
leading `'-'`, decimal digits, `int64_t` range. -/
def parseI64 (s : SV) : Option Int :=
  match s with
  | '-' :: rest =>
      if (!rest.isEmpty && rest.all Char.isDigit) = true ∧ digitsToNat rest ≤ 2 ^ 63 then
        some (-(digitsToNat rest : Int))
      else none
  | _ =>
      if (!s.isEmpty && s.all Char.isDigit) = true ∧ digitsToNat s ≤ 2 ^ 63 - 1 then
        some ((digitsToNat s : Int))
      else none

/-- Unsigned decimal with optional fraction part, as a rational. -/
def parseRatCore (s : SV) : Option ℚ :=
  match s.findIdx? (· = '.') with
  | none =>
      if (!s.isEmpty && s.all Char.isDigit) = true then some ((digitsToNat s : ℚ))
      else none
  | some p =>
      let ip := s.take p
      let fp := s.drop (p + 1)
      if ((!ip.isEmpty || !fp.isEmpty) && ip.all Char.isDigit && fp.all Char.isDigit) = true then
        some ((digitsToNat ip : ℚ) + (digitsToNat fp : ℚ) / ((10 : ℚ) ^ fp.length))
      else none

/-- `fast_to_f` (swtor_parser.cpp:297): `std::from_chars` for a float —
optional `'-'` (no `'+'`), full consumption.  The float value is modelled
exactly as a rational. -/
def fast_to_f (s : SV) : Option ℚ :=
  match s with
  | '-' :: rest => (parseRatCore rest).map (fun q => -q)
  | _ => parseRatCore s

/-- `parse_double_sv` (swtor_parser.cpp:318): `strtod` over the whole view,
requiring the terminator to be reached.  `strtod` skips leading spaces and
accepts a leading `'+'`; on the empty string it performs no conversion but
the terminator check still passes, yielding `0.0`. -/
def parse_double_sv (s : SV) : Option ℚ :=
  if s.isEmpty then some 0
  else
    let t := s.dropWhile (· = ' ')
    match t with
    | [] => none
    | '-' :: rest => (parseRatCore rest).map (fun q => -q)
    | '+' :: rest => parseRatCore rest
    | _ => parseRatCore t

/-- `static_cast<int32_t>` of an `int64_t` value (two's-complement wrap). -/
def toInt32 (n : Int) : Int := (n + 2 ^ 31) % 2 ^ 32 - 2 ^ 31

-- ===================== trailing data model (swtor_parser.h) =====================

/-- `MitigationFlags` (swtor_parser.h:662): a `uint16_t` bit set. -/
def MitigationFlags.None : Nat := 0

/-- Bit for `shield`. -/
def MitigationFlags.Shield : Nat := 1

/-- Bit for `deflect`. -/
def MitigationFlags.Deflect : Nat := 2

/-- Bit for `glance`. -/
def MitigationFlags.Glance : Nat := 4

/-- Bit for `dodge`. -/
def MitigationFlags.Dodge : Nat := 8

/-- Bit for `parry`. -/
def MitigationFlags.Parry : Nat := 16

/-- Bit for `resist`. -/
def MitigationFlags.Resist : Nat := 32

/-- Bit for `miss`. -/
def MitigationFlags.Miss : Nat := 64

/-- Bit for `immune`. -/
def MitigationFlags.Immune : Nat := 128

/-- `has_flag` (swtor_parser.cpp:531). -/
def has_flag (f b : Nat) : Bool := f.land b ≠ 0

/-- `ValueKind` (swtor_parser.h:693). -/
inductive ValueKind where
  | None
  | Numeric
  | Charges
  | Unknown
  deriving DecidableEq, Repr

/-- `School` (swtor_parser.h:698). -/
structure School where
  name : SV := []
  id : Nat := 0
  present : Bool := false
  deriving DecidableEq, Repr

/-- `ShieldDetail` (swtor_parser.h:716). -/
structure ShieldDetail where
  shield_effect_id : Nat := 0
  absorbed : Int := 0
  absorbed_id : Nat := 0
  present : Bool := false
  deriving DecidableEq, Repr

/-- `ValueField` (swtor_parser.h:738). -/
structure ValueField where
  amount : Int := 0
  crit : Bool := false
  has_secondary : Bool := false
  secondary : Int := 0
  school : School := {}
  mitig : Nat := MitigationFlags.None
  shield : ShieldDetail := {}
  deriving DecidableEq, Repr

/-- `Trailing` (swtor_parser.h:772). -/
structure Trailing where
  kind : ValueKind := ValueKind.None
  val : ValueField := {}
  charges : Int := 0
  has_charges : Bool := false
  has_threat : Bool := false
  threat : ℚ := 0
  unparsed : SV := []
  deriving DecidableEq, Repr

-- ===================== trailing sub-parser (swtor_parser.cpp) =====================

/-- `peel_terminal_threat` (swtor_parser.cpp:502): trim, and when the view
ends in `>` with a matching `<`, cut that group off and try to read a double
from it.  The group is removed even when the double fails to parse.  Returns
the remaining view and the threat value when present. -/
def peel_terminal_threat (tail : SV) : SV × Option ℚ :=
  let tail := trim_ws tail
  if tail.isEmpty then (tail, none)
  else if tail.getLast? ≠ some '>' then (tail, none)
  else
    match rfindIdxOf tail '<' with
    | none => (tail, none)
    | some lb =>
        let inner := trim_ws (sub tail (lb + 1) (tail.length - lb - 2))
        (trim_ws (tail.take lb), parse_double_sv inner)

/-- The scan loop of `peel_paren_group` (swtor_parser.cpp:520): index one past
the `)` closing the first balanced parenthesis group, if balanced. -/
def scanParen : SV → Int → Nat → Option Nat
  | [], _, _ => none
  | c :: rest, depth, i =>
      if c = '(' then scanParen rest (depth + 1) (i + 1)
      else if c = ')' then
        (if depth - 1 = 0 then some (i + 1) else scanParen rest (depth - 1) (i + 1))
      else scanParen rest depth (i + 1)

/-- `peel_paren_group` (swtor_parser.cpp:517): trim; if the view starts with a
balanced `( … )` group, return its inner text and the trimmed remainder
after it; otherwise return an empty group and the trimmed view. -/
def peel_paren_group (sv : SV) : SV × SV :=
  let sv := trim_ws sv
  match sv with
  | '(' :: _ =>
      (match scanParen sv 0 0 with
       | none => ([], sv)
       | some i => (sub sv 1 (i - 2), trim_ws (sv.drop i)))
  | _ => ([], sv)

/-- `parse_mitigation_token` (swtor_parser.cpp:536): recognize one mitigation
word by first character and length. -/
def parse_mitigation_token (tok : SV) : Nat :=
  match tok with
  | [] => MitigationFlags.None
  | c :: _ =>
      if c = 's' then (if tok = "shield".toList then MitigationFlags.Shield else MitigationFlags.None)
      else if c = 'd' then
        (if tok = "deflect".toList then MitigationFlags.Deflect
         else if tok = "dodge".toList then MitigationFlags.Dodge
         else MitigationFlags.None)
      else if c = 'g' then (if tok = "glance".toList then MitigationFlags.Glance else MitigationFlags.None)
      else if c = 'p' then (if tok = "parry".toList then MitigationFlags.Parry else MitigationFlags.None)
      else if c = 'r' then (if tok = "resist".toList then MitigationFlags.Resist else MitigationFlags.None)
      else if c = 'm' then (if tok = "miss".toList then MitigationFlags.Miss else MitigationFlags.None)
      else if c = 'i' then (if tok = "immune".toList then MitigationFlags.Immune else MitigationFlags.None)
      else MitigationFlags.None

/-- One pass handling the optional `{shield_effect_id}` after a mitigation
token (swtor_parser.cpp:589). -/
def mitigShieldId (cur : SV) (vf : ValueField) : SV × ValueField :=
  match cur with
  | '\x7b' :: _ =>
      (match findIdxOf cur '\x7d' with
       | none => (cur, vf)
       | some rb =>
           let idsv := sub cur 1 (rb - 1)
           let vf :=
             match parseU64 idsv with
             | some sid =>
                 if has_flag vf.mitig MitigationFlags.Shield then
                   { vf with shield := { vf.shield with present := true, shield_effect_id := sid } }
                 else vf
             | none => vf
           (trim_ws (cur.drop (rb + 1)), vf))
  | _ => (cur, vf)

/-- One pass handling the optional `(N absorbed {id})` sub-group after a
mitigation token (swtor_parser.cpp:602). -/
def mitigAbsorbed (cur : SV) (vf : ValueField) : SV × ValueField :=
  match cur with
  | '(' :: _ =>
      let (grp, cur1) := peel_paren_group cur
      let (x, rest2) := split_once grp ' '
      let vf :=
        if sub rest2 0 8 = "absorbed".toList then
          let vf :=
            match parseI64 x with
            | some absorbed => { vf with shield := { vf.shield with present := true, absorbed := absorbed } }
            | none => vf
          match findIdxOf rest2 '\x7b' with
          | some lb =>
              (match findFrom rest2 '\x7d' (lb + 1) with
               | some rb =>
                   (match parseU64 (sub rest2 (lb + 1) (rb - lb - 1)) with
                    | some aid => { vf with shield := { vf.shield with present := true, absorbed_id := aid } }
                    | none => vf)
               | none => vf)
          | none => vf
        else vf
      (trim_ws cur1, vf)
  | _ => (cur, vf)

/-- The loop body of `parse_mitigation_tail` (swtor_parser.cpp:567); `fuel`
bounds the iteration count (each pass consumes at least the leading `'-'`,
so `rest.length + 1` fuel is always enough). -/
def parse_mitigation_tailAux : Nat → SV → ValueField → ValueField
  | 0, _, vf => vf
  | fuel + 1, cur, vf =>
      match cur with
      | '-' :: cur1 =>
          let stop := findFirstOf cur1 (fun c => c = ' ' || c = '\x7b')
          let token := match stop with | none => cur1 | some p => cur1.take p
          let vf := { vf with mitig := vf.mitig.lor (parse_mitigation_token token) }
          (match stop with
           | none => vf
           | some p =>
               let cur2 := trim_ws (cur1.drop p)
               let (cur3, vf) := mitigShieldId cur2 vf
               let (cur4, vf) := mitigAbsorbed cur3 vf
               let cur5 := cur4.dropWhile (· = ' ')
               match cur5 with
               | '-' :: _ => parse_mitigation_tailAux fuel cur5 vf
               | _ => vf)
      | _ => vf

/-- `parse_mitigation_tail` (swtor_parser.cpp:567). -/
def parse_mitigation_tail (rest : SV) (vf : ValueField) : ValueField :=
  parse_mitigation_tailAux (rest.length + 1) rest vf

/-- The school-and-mitigation suffix of `parse_value_group`
(swtor_parser.cpp:651-678). -/
def valueGroupSchool (out : ValueField) (cur : SV) : ValueField :=
  let (out, cur) :=
    match cur with
    | [] => (out, cur)
    | c :: _ =>
        if c ≠ '-' ∧ c ≠ '(' then
          let wstop := (findFirstOf cur (fun ch => ch = ' ' || ch = '\x7b')).getD cur.length
          let w := cur.take wstop
          let cur1 := trim_ws (cur.drop wstop)
          match cur1 with
          | '\x7b' :: _ =>
              (match findIdxOf cur1 '\x7d' with
               | some rb =>
                   let idsv := sub cur1 1 (rb - 1)
                   let out :=
                     match parseU64 idsv with
                     | some sid => { out with school := { present := true, name := w, id := sid } }
                     | none => out
                   (out, trim_ws (cur1.drop (rb + 1)))
               | none => ({ out with school := { out.school with present := true, name := w } }, cur1))
          | _ =>
              if !w.isEmpty then
                ({ out with school := { out.school with present := true, name := w } }, cur1)
              else (out, cur1)
        else (out, cur)
  match cur with
  | '-' :: _ => parse_mitigation_tail cur out
  | _ => out

/-- `parse_value_group` (swtor_parser.cpp:623): amount, optional `*` crit
marker, optional `~ secondary`, optional school with `{id}`, then the
mitigation chain. -/
def parse_value_group (grp : SV) : Option ValueField :=
  let cur := trim_ws grp
  let stop := findFirstOf cur (fun c => c = ' ' || c = '*' || c = '~')
  let amt := match stop with | none => cur | some p => cur.take p
  match parseI64 amt with
  | none => none
  | some amount =>
      let out : ValueField := { amount := amount }
      let cur := match stop with | none => ([] : SV) | some p => cur.drop p
      let (out, cur) :=
        match cur with
        | '*' :: rest => ({ out with crit := true }, rest)
        | _ => (out, cur)
      let cur := trim_ws cur
      match cur with
      | '~' :: cur1 =>
          let cur1 := trim_ws cur1
          let sstop := findFirstOf cur1 (fun c => c = ' ' || c = ')')
          let sec := match sstop with | none => cur1 | some p => cur1.take p
          (match parseI64 sec with
           | none => none
           | some s =>
               let out := { out with has_secondary := true, secondary := s }
               let cur2 := match sstop with | none => ([] : SV) | some p => cur1.drop p
               some (valueGroupSchool out (trim_ws cur2)))
      | _ => some (valueGroupSchool out (trim_ws cur))

/-- `parse_charges_group` (swtor_parser.cpp:681): `<int> charges`, the count
narrowed to `int32_t`. -/
def parse_charges_group (grp : SV) : Option Int :=
  let core := trim_ws grp
  let (numtok, rest) := split_once core ' '
  match parseI64 numtok with
  | none => none
  | some n =>
      if trim_ws rest = "charges".toList then some (toInt32 n) else none

/-- `while (p < end && *p == ' ') ++p`. -/
def skipSp (s : SV) : SV := s.dropWhile (· = ' ')

/-- The digit-accumulation loops of the fast trailing path
(swtor_parser.cpp:717 etc.).  The C++ accumulates into 64-bit variables;
the inputs exercised here stay far below that range, so the accumulator is
left unbounded. -/
def scanDigitsAux : SV → Nat → Nat × SV
  | [], acc => (acc, [])
  | c :: rest, acc =>
      if c.isDigit then scanDigitsAux rest (acc * 10 + (c.toNat - 48)) else (acc, c :: rest)

/-- The letter scan of the fast trailing path (swtor_parser.cpp:740):
ASCII `A`-`Z` and `a`-`z` only. -/
def scanAlpha : SV → SV × SV
  | [] => ([], [])
  | c :: rest =>
      if ('A' ≤ c ∧ c ≤ 'Z') ∨ ('a' ≤ c ∧ c ≤ 'z') then
        let (w, r) := scanAlpha rest
        (c :: w, r)
      else ([], c :: rest)

/-- The school-then-end tail of `parse_trailing_fast_common`
(swtor_parser.cpp:738-755): optional run of letters as school name, optional
`{id}`, then the group must be exhausted. -/
def fastSchoolEnd (vf : ValueField) (p : SV) : Option ValueField :=
  let (letters, p1) := scanAlpha p
  if letters.isEmpty then
    (if p1.isEmpty then some vf else none)
  else
    let vf := { vf with school := { vf.school with present := true, name := letters } }
    let p2 := skipSp p1
    match p2 with
    | '\x7b' :: r =>
        let (sid, r1) := scanDigitsAux r 0
        if r1.length = r.length then none
        else
          (match r1 with
           | '\x7d' :: r2 =>
               let vf := { vf with school := { vf.school with id := sid } }
               (if (skipSp r2).isEmpty then some vf else none)
           | _ => none)
    | _ => (if p2.isEmpty then some vf else none)

/-- `parse_trailing_fast_common` (swtor_parser.cpp:693): the single-scan fast
path for `(amt[*]? [~ sec]? school {id}?) [<threat>]` — no `'-'` anywhere and
at most one parenthesis group. -/
def parse_trailing_fast_common (tail : SV) : Option Trailing :=
  let (work, thr) := peel_terminal_threat tail
  if (work.findIdx? (· = '-')).isSome then none
  else
    match findIdxOf work '(' with
    | none => some { kind := ValueKind.None, has_threat := thr.isSome, threat := thr.getD 0 }
    | some first_open =>
        if (findFrom work '(' (first_open + 1)).isSome then none
        else
          match findFrom work ')' (first_open + 1) with
          | none => none
          | some close =>
              let grp := sub work (first_open + 1) (close - (first_open + 1))
              let (neg, p1) := match grp with | '-' :: r => (true, r) | _ => (false, grp)
              let (amt, p2) := scanDigitsAux p1 0
              if p2.length = p1.length then none
              else
                let vf : ValueField := { amount := if neg then -(amt : Int) else (amt : Int) }
                let p3 := skipSp p2
                let (vf, p4) :=
                  match p3 with
                  | '*' :: r => ({ vf with crit := true }, skipSp r)
                  | _ => (vf, p3)
                let vfEnd : Option ValueField :=
                  match p4 with
                  | '~' :: r =>
                      let r := skipSp r
                      let (sneg, r1) := match r with | '-' :: rr => (true, rr) | _ => (false, r)
                      let (sec, r2) := scanDigitsAux r1 0
                      if r2.length = r1.length then none
                      else
                        fastSchoolEnd
                          { vf with has_secondary := true,
                                    secondary := if sneg then -(sec : Int) else (sec : Int) }
                          (skipSp r2)
                  | _ => fastSchoolEnd vf p4
                match vfEnd with
                | none => none
                | some vf =>
                    some { kind := ValueKind.Numeric, val := vf,
                           has_threat := thr.isSome, threat := thr.getD 0,
                           unparsed := work.drop (close + 1) }

/-- `parse_trailing` (swtor_parser.cpp:764): fast path first, then the
tolerant dispatcher (threat peel, charges group, value group, `Unknown`
fallback).  The C++ function returns `bool` but can never return `false`;
the result record is returned directly. -/
def parse_trailing (tail : SV) : Trailing :=
  match parse_trailing_fast_common tail with
  | some t => t
  | none =>
      let (tail1, thr) := peel_terminal_threat tail
      let base : Trailing := { has_threat := thr.isSome, threat := thr.getD 0 }
      if tail1.isEmpty then { base with kind := ValueKind.None }
      else
        let (grp1, tail2) := peel_paren_group tail1
        if grp1.isEmpty then { base with kind := ValueKind.None, unparsed := tail2 }
        else
          match parse_charges_group grp1 with
          | some charges =>
              { base with kind := ValueKind.Charges, charges := charges,
                          has_charges := true, unparsed := tail2 }
          | none =>
              match parse_value_group grp1 with
              | none => { base with kind := ValueKind.Unknown, unparsed := grp1 }
              | some vf => { base with kind := ValueKind.Numeric, val := vf, unparsed := tail2 }

-- ===================== event / entity data model (swtor_parser.h) =====================

/-- `EventType` (swtor_parser.h:127), kept as the raw `uint64_t` ids. -/
def EventType.Event : Nat := 836045448945472

/-- `EventType::AreaEntered`. -/
def EventType.AreaEntered : Nat := 836045448953664

/-- `EventType::Spend`. -/
def EventType.Spend : Nat := 836045448945473

/-- `EventType::DisciplineChanged`. -/
def EventType.DisciplineChanged : Nat := 836045448953665

/-- `EventType::ApplyEffect`. -/
def EventType.ApplyEffect : Nat := 836045448945477

/-- `EventType::RemoveEffect`. -/
def EventType.RemoveEffect : Nat := 836045448945478

/-- `EventType::ModifyCharges`. -/
def EventType.ModifyCharges : Nat := 836045448953666

/-- `EventType::Restore`. -/
def EventType.Restore : Nat := 836045448945476

/-- `EventActionType` (swtor_parser.h:142), raw ids. -/
def EventActionType.Heal : Nat := 836045448945500

/-- `EventActionType::EnterCombat`. -/
def EventActionType.EnterCombat : Nat := 836045448945489

/-- `EventActionType::ExitCombat`. -/
def EventActionType.ExitCombat : Nat := 836045448945490

/-- `EventActionType::Damage`. -/
def EventActionType.Damage : Nat := 836045448945501

/-- `EventActionType::Revived`. -/
def EventActionType.Revived : Nat := 836045448945494

/-- `EventActionType::ModifyThreat`. -/
def EventActionType.ModifyThreat : Nat := 836045448945483

/-- `EventActionType::Death`. -/
def EventActionType.Death : Nat := 836045448945493

/-- `EventActionType::TargetSet`. -/
def EventActionType.TargetSet : Nat := 836045448953668

/-- `EventActionType::TargetCleared`. -/
def EventActionType.TargetCleared : Nat := 836045448953669

/-- `CombatRole` (swtor_parser.h:198). -/
inductive CombatRole where
  | Unknown
  | DPS
  | Healer
  | Tank
  deriving DecidableEq, Repr

/-- `Discipline` ids needed by `deduce_combat_role` (swtor_parser.h:208);
the enum is kept as raw `uint64_t` values. -/
def Discipline.CombatMedic : Nat := 1610854127306954

/-- `Discipline::Bodyguard`. -/
def Discipline.Bodyguard : Nat := 2203256920318106

/-- `Discipline::ShieldSpecialist`. -/
def Discipline.ShieldSpecialist : Nat := 3007101716805754

/-- `Discipline::ShieldTech`. -/
def Discipline.ShieldTech : Nat := 1929098417348794

/-- `Discipline::Sawbones`. -/
def Discipline.Sawbones : Nat := 2487567242063162

/-- `Discipline::Medicine`. -/
def Discipline.Medicine : Nat := 1932232264187162

/-- `Discipline::Defense`. -/
def Discipline.Defense : Nat := 1929098417479866

/-- `Discipline::Immortal`. -/
def Discipline.Immortal : Nat := 1913582031199546

/-- `Discipline::KineticCombat`. -/
def Discipline.KineticCombat : Nat := 3218586805260602

/-- `Discipline::Darkness`. -/
def Discipline.Darkness : Nat := 1930851419333946

/-- `Discipline::Seer`. -/
def Discipline.Seer : Nat := 3218621659655354

/-- `Discipline::Corruption`. -/
def Discipline.Corruption : Nat := 583093866373434

/-- `deduce_combat_role` (swtor_parser.cpp:213): the switch over healer and
tank disciplines; everything else — including unknown ids — is DPS. -/
def deduce_combat_role (disc : Nat) : CombatRole :=
  if disc = Discipline.CombatMedic ∨ disc = Discipline.Bodyguard ∨
     disc = Discipline.Sawbones ∨ disc = Discipline.Medicine ∨
     disc = Discipline.Seer ∨ disc = Discipline.Corruption then CombatRole.Healer
  else if disc = Discipline.ShieldSpecialist ∨ disc = Discipline.ShieldTech ∨
          disc = Discipline.Defense ∨ disc = Discipline.Immortal ∨
          disc = Discipline.KineticCombat ∨ disc = Discipline.Darkness then CombatRole.Tank
  else CombatRole.DPS

/-- `AreaDifficulty` (swtor_parser.h:78). -/
inductive AreaDifficulty where
  | Unknown
  | Solo
  | Story_4
  | Veteran_4
  | Master_4
  | Story_8
  | Veteran_8
  | Master_8
  | Story_16
  | Veteran_16
  | Master_16
  deriving DecidableEq, Repr

/-- The enum value of `AreaDifficulty::Master_8` (swtor_parser.h:86). -/
def AreaDifficulty.master8Id : Nat := 836045448953655

/-- `deduce_area_difficulty` (swtor_parser.h:97): the source ignores its
argument and unconditionally returns `Solo`. -/
def deduce_area_difficulty (difficult_id : Nat) : AreaDifficulty :=
  AreaDifficulty.Solo

/-- `Position` (swtor_parser.h:304); `float` modelled as `ℚ`. -/
structure Position where
  x : ℚ := 0
  y : ℚ := 0
  z : ℚ := 0
  facing : ℚ := 0
  deriving DecidableEq, Repr

/-- `Health` (swtor_parser.h:290). -/
structure Health where
  current : Int := 0
  max : Int := 0
  deriving DecidableEq, Repr

/-- `CompanionOwner` (swtor_parser.h:328). -/
structure CompanionOwner where
  name_no_at : SV := []
  player_numeric_id : Nat := 0
  has_owner : Bool := false
  deriving DecidableEq, Repr

/-- `Entity` (swtor_parser.h:346). -/
structure Entity where
  display : SV := []
  name : SV := []
  companion_name : SV := []
  id : Nat := 0
  type_id : Nat := 0
  is_player : Bool := false
  is_companion : Bool := false
  empty : Bool := false
  is_same_as_source : Bool := false
  pos : Position := {}
  hp : Health := {}
  owner : CompanionOwner := {}
  deriving DecidableEq, Repr

/-- `NamedId` (swtor_parser.h:427). -/
structure NamedId where
  name : SV := []
  id : Nat := 0
  deriving DecidableEq, Repr

/-- `EventEffect` (swtor_parser.h:441). -/
structure EventEffect where
  type_id : Nat := 0
  action_id : Nat := 0
  type_name : SV := []
  action_name : SV := []
  data : SV := []
  deriving DecidableEq, Repr

/-- `EventEffect::matches(const EventType&)` (swtor_parser.cpp:192):
compares the type id only. -/
def EventEffect.matchesType (e : EventEffect) (et : Nat) : Bool := e.type_id = et

/-- `EventEffect::matches(uint64_t)` / `matches(EventActionType)`
(swtor_parser.cpp:198): matches when either the type id or the action id
equals the given id. -/
def EventEffect.matchesU64 (e : EventEffect) (id : Nat) : Bool :=
  e.type_id = id || e.action_id = id

/-- `TimeStamp` (swtor_parser.h:520). -/
structure TimeStamp where
  combat_ms : Nat := 0
  refined_epoch_ms : Int := -1
  h : Nat := 0
  m : Nat := 0
  s : Nat := 0
  ms : Nat := 0
  year : Nat := 0
  month : Nat := 0
  day : Nat := 0
  deriving DecidableEq, Repr

/-- `TimeStamp::update_combat_ms` (swtor_parser.h:579); the computation is
carried out in `uint32_t`. -/
def TimeStamp.update_combat_ms (t : TimeStamp) : TimeStamp :=
  { t with combat_ms := (((t.h * 60 + t.m) * 60 + t.s) * 1000 + t.ms) % 2 ^ 32 }

/-- `AreaEnteredData` (swtor_parser.h:606). -/
structure AreaEnteredData where
  area : NamedId := {}
  difficulty : NamedId := {}
  difficulty_value : AreaDifficulty := AreaDifficulty.Unknown
  version : SV := []
  raw_value : SV := []
  has_difficulty : Bool := false
  deriving DecidableEq, Repr

/-- `DisciplineChangedData` (swtor_parser.h:636); the class and discipline
enums are raw ids produced by `static_cast`. -/
structure DisciplineChangedData where
  combat_class : NamedId := {}
  discipline : NamedId := {}
  combat_class_enum : Nat := 0
  discipline_enum : Nat := 0
  role_enum : CombatRole := CombatRole.Unknown
  deriving DecidableEq, Repr

/-- `ParseStatus` (swtor_parser.h:806). -/
inductive ParseStatus where
  | Ok
  | Malformed
  deriving DecidableEq, Repr

/-- `CombatLine` (swtor_parser.h:811). -/
structure CombatLine where
  t : TimeStamp := {}
  source : Entity := {}
  target : Entity := {}
  ability : NamedId := {}
  event : EventEffect := {}
  tail : Trailing := {}
  area_entered : AreaEnteredData := {}
  discipline_changed : DisciplineChangedData := {}
  deriving DecidableEq, Repr

/-- `operator==(CombatLine, EventType)` (swtor_parser.h:874). -/
def CombatLine.matchesType (p : CombatLine) (et : Nat) : Bool := p.event.matchesType et

/-- `operator==(CombatLine, EventActionType)` (swtor_parser.h:881). -/
def CombatLine.matchesAction (p : CombatLine) (eat : Nat) : Bool := p.event.matchesU64 eat

-- ===================== line sub-parsers (swtor_parser.cpp) =====================

/-- `next_bracket` (swtor_parser.cpp:267): the next `[…]` region (brackets
included) from `cursor`; on failure the empty view with `cursor` untouched. -/
def next_bracket (line : SV) (cursor : Nat) : SV × Nat :=
  match findFrom line '[' cursor with
  | none => ([], cursor)
  | some l =>
      match findFrom line ']' (l + 1) with
      | none => ([], cursor)
      | some r => (sub line l (r - l + 1), r + 1)

/-- `parse_timestamp_hhmmssmmm_struct` (swtor_parser.cpp:328).  The C++
fills the out-parameter field by field (short-circuiting on the first
failure) and only then recomputes `combat_ms`; the partially written record
is preserved here the same way. -/
def parse_timestamp_hhmmssmmm_struct (br : SV) (t : TimeStamp) : Bool × TimeStamp :=
  let core := strip_one br '[' ']'
  let (h, rest1) := split_once core ':'
  let (m, rest2) := split_once rest1 ':'
  let (s, ms) := split_once rest2 '.'
  match parseU32 h with
  | none => (false, t)
  | some uh =>
      let t := { t with h := uh }
      match parseU32 m with
      | none => (false, t)
      | some um =>
          let t := { t with m := um }
          match parseU32 s with
          | none => (false, t)
          | some us =>
              let t := { t with s := us }
              match parseU32 ms with
              | none => (false, t)
              | some ums => (true, TimeStamp.update_combat_ms { t with ms := ums })

/-- `parse_position` (swtor_parser.cpp:353); short-circuit field writes as in
the source (`from_chars` leaves the output unmodified on error). -/
def parse_position (paren : SV) (p : Position) : Bool × Position :=
  let core := strip_one paren '(' ')'
  let (p0, r1) := split_once core ','
  let (p1, r2) := split_once r1 ','
  let (p2, r3) := split_once r2 ','
  let (p3, _) := split_once r3 ','
  match fast_to_f p0 with
  | none => (false, p)
  | some x =>
      let p := { p with x := x }
      match fast_to_f p1 with
      | none => (false, p)
      | some y =>
          let p := { p with y := y }
          match fast_to_f p2 with
          | none => (false, p)
          | some z =>
              let p := { p with z := z }
              match fast_to_f p3 with
              | none => (false, p)
              | some f => (true, { p with facing := f })

/-- `parse_health` (swtor_parser.cpp:362). -/
def parse_health (paren : SV) (hp : Health) : Bool × Health :=
  let core := strip_one paren '(' ')'
  let (a, b) := split_once core '/'
  match parseI64 a with
  | none => (false, hp)
  | some cu =>
      let hp := { hp with current := cu }
      match parseI64 b with
      | none => (false, hp)
      | some mx => (true, { hp with max := mx })

/-- Drop only trailing spaces (`while back == ' ' remove_suffix`). -/
def rstrip (s : SV) : SV := (s.reverse.dropWhile (· = ' ')).reverse

/-- Drop at most one trailing space (`if back == ' ' remove_suffix(1)`). -/
def rstripOne (s : SV) : SV := if s.getLast? = some ' ' then s.dropLast else s

/-- `swtor::parse_named_id` (swtor_parser.cpp:369): `Name {ID}`.  When the id
digits fail `fast_parse_u64` the out-parameter keeps its prior id. -/
def parse_named_id (text : SV) (out : NamedId) : Bool × NamedId :=
  match findIdxOf text '\x7b' with
  | none => (false, out)
  | some lb =>
      match findFrom text '\x7d' (lb + 1) with
      | none => (false, out)
      | some rb =>
          let name_part := rstrip (text.take lb)
          let id_sv := sub text (lb + 1) (rb - lb - 1)
          (true, { name := name_part, id := (parseU64 id_sv).getD out.id })

/-- `parse_player_token` (swtor_parser.cpp:387): returns
`(name_no_at, num_id, looks_player)`. -/
def parse_player_token (sv : SV) : SV × Nat × Bool :=
  let looks_player := sv.head? = some '@'
  let sv := if looks_player then sv.drop 1 else sv
  match rfindIdxOf sv '#' with
  | some hash =>
      (match parseU64 (sv.drop (hash + 1)) with
       | some pid => (sv.take hash, pid, looks_player)
       | none => (sv, 0, looks_player))
  | none => (sv, 0, looks_player)

/-- Companion / NPC `{staticId[:instId]}` suffix (swtor_parser.cpp:423-436,
469-476): `(comp_name, staticId, instId)`, or `none` when the static id
digits are present but unparsable. -/
def parseBracedIds (right : SV) : Option (SV × Nat × Nat) :=
  match rfindIdxOf right '\x7b' with
  | none => some (right, 0, 0)
  | some lb =>
      let comp_name0 := right.take lb
      let comp_name :=
        if comp_name0.getLast? = some ' ' then comp_name0.dropLast else comp_name0
      match rfindIdxOf right '\x7d' with
      | some rb =>
          if lb < rb then
            match parseU64 (sub right (lb + 1) (rb - lb - 1)) with
            | none => none
            | some staticId =>
                let instId :=
                  match findFrom right ':' (rb + 1) with
                  | some colon => (parseU64 (right.drop (colon + 1))).getD 0
                  | none => 0
                some (comp_name, staticId, instId)
          else some (comp_name, 0, 0)
      | none => some (comp_name, 0, 0)

/-- The shared `parse_position(parts[1]) && parse_health(parts[2])` suffix of
each `parse_entity` branch (swtor_parser.cpp:446, 460, 486). -/
def entityPosHp (d1 d2 : SV) (out : Entity) : Bool × Entity :=
  match parse_position d1 out.pos with
  | (false, pos) => (false, { out with pos := pos })
  | (true, pos) =>
      let out := { out with pos := pos }
      match parse_health d2 out.hp with
      | (false, hp) => (false, { out with hp := hp })
      | (true, hp) => (true, { out with hp := hp })

/-- `parse_entity` (swtor_parser.cpp:404): `[Display|Position|Health]` for
players, companions, and NPC/objects, plus the `[]` and `[=]` short forms.
Mutations of the out-parameter made before a failing check are preserved. -/
def parse_entity (br : SV) (out : Entity) : Bool × Entity :=
  let core := strip_one br '[' ']'
  let out := { out with display := core }
  if core.isEmpty then (true, { out with empty := true })
  else if core = "=".toList then (true, { out with empty := false, is_same_as_source := true })
  else
    let out := { out with empty := false }
    let (d0, r1) := split_once core '|'
    let (d1, r2) := split_once r1 '|'
    let (d2, _) := split_once r2 '|'
    let disp := d0
    match findIdxOf disp '/' with
    | some slash =>
        -- companion: "OwnerToken/CompanionName {staticId[:instId]}"
        let owner_token := disp.take slash
        let (owner_name, owner_id, _owner_is_player) := parse_player_token owner_token
        let right := disp.drop (slash + 1)
        (match parseBracedIds right with
         | none => (false, out)
         | some (comp_name, staticId, instId) =>
             let out := { out with
               is_companion := true, is_player := false,
               owner := { name_no_at := owner_name, player_numeric_id := owner_id,
                          has_owner := true },
               name := comp_name, companion_name := comp_name,
               type_id := staticId, id := instId }
             entityPosHp d1 d2 out)
    | none =>
        let (pname, pid, looks) := parse_player_token disp
        if looks then
          let out := { out with
            is_player := true, is_companion := false, owner := {},
            name := pname, companion_name := [], type_id := 0, id := pid }
          entityPosHp d1 d2 out
        else
          -- NPC/object: "Name {staticId[:instId]}"
          let out := { out with is_player := false, is_companion := false,
                                owner := {}, companion_name := [] }
          let lb := rfindIdxOf disp '\x7b'
          let rb := rfindIdxOf disp '\x7d'
          let step : Option Entity :=
            match lb, rb with
            | some l, some r =>
                if l < r then
                  match parseU64 (sub disp (l + 1) (r - l - 1)) with
                  | none => none
                  | some staticId =>
                      let instId :=
                        match findFrom disp ':' (r + 1) with
                        | some colon => (parseU64 (disp.drop (colon + 1))).getD 0
                        | none => 0
                      let nm := rstripOne (disp.take l)
                      some { out with name := nm, type_id := staticId, id := instId }
                else some { out with name := disp, type_id := 0, id := 0 }
            | _, _ => some { out with name := disp, type_id := 0, id := 0 }
          match step with
          | none => (false, out)
          | some out => entityPosHp d1 d2 out

/-- `parse_ability` (swtor_parser.cpp:493); `parse_combat_line` ignores its
boolean result, leaving the ability untouched when parsing fails. -/
def parse_ability (br : SV) (out : NamedId) : NamedId :=
  (parse_named_id (strip_one br '[' ']') out).2

/-- `detail::extract_parens_content` (swtor_parser.cpp:42): inner text of a
`(…)` group at `pos`, advancing `pos` past `)` and any following spaces. -/
def extract_parens_content (text : SV) (pos : Nat) : SV × Nat :=
  if (text.drop pos).head? = some '(' then
    match findFrom text ')' pos with
    | none => ([], pos)
    | some close =>
        let content := sub text (pos + 1) (close - pos - 1)
        let pos := close + 1
        (content, pos + ((text.drop pos).takeWhile (· = ' ')).length)
  else ([], pos)

/-- `detail::extract_angle_content` (swtor_parser.cpp:53). -/
def extract_angle_content (text : SV) (pos : Nat) : SV × Nat :=
  if (text.drop pos).head? = some '<' then
    match findFrom text '>' pos with
    | none => ([], pos)
    | some close => (sub text (pos + 1) (close - pos - 1), close + 1)
  else ([], pos)

/-- `strtoull(p, nullptr, 10)` on a view whose backing buffer continues with
a non-digit (`'}'` at every call site): leading whitespace skipped, then the
longest digit run.  Saturation at `ULLONG_MAX` is not modelled; the ids in
the logs fit `uint64_t`. -/
def strtoull10 (s : SV) : Nat :=
  let t := s.dropWhile (fun c => c = ' ' || c = '\t')
  digitsToNat (t.takeWhile Char.isDigit)

/-- `detail::parse_area_entered` (swtor_parser.cpp:65): area `NamedId`,
optional difficulty `NamedId` (detected by counting `\x7d`), the deduced
difficulty enum, and the raw `(value)` text.  Mutations made before a
failing check are preserved in the out-parameter. -/
def parse_area_entered (event_text value_text : SV) (out : AreaEnteredData) :
    Bool × AreaEnteredData :=
  match findIdxOf event_text ':' with
  | none => (false, out)
  | some colon =>
      let rem := (event_text.drop (colon + 1)).dropWhile (· = ' ')
      let brace_count := (rem.filter (· = '\x7d')).length
      let first_close := (rem.findIdx? (· = '\x7d')).getD 0
      let step : Bool × AreaEnteredData :=
        if brace_count = 1 then
          match parse_named_id rem out.area with
          | (false, area) => (false, { out with area := area })
          | (true, area) => (true, { out with area := area, has_difficulty := false })
        else if brace_count = 2 then
          let area_part := rem.take (first_close + 1)
          match parse_named_id area_part out.area with
          | (false, area) => (false, { out with area := area })
          | (true, area) =>
              let out := { out with area := area }
              let diff_part := (rem.drop (first_close + 1)).dropWhile (· = ' ')
              match parse_named_id diff_part out.difficulty with
              | (false, difficulty) => (false, { out with difficulty := difficulty })
              | (true, difficulty) =>
                  (true, { out with difficulty := difficulty, has_difficulty := true })
        else (false, out)
      match step with
      | (false, out) => (false, out)
      | (true, out) =>
          let out :=
            if out.has_difficulty then
              { out with difficulty_value := deduce_area_difficulty out.difficulty.id }
            else out
          let out := if !value_text.isEmpty then { out with raw_value := value_text } else out
          (true, out)

/-- `detail::parse_discipline_changed` (swtor_parser.cpp:106). -/
def parse_discipline_changed (event_text : SV) (out : DisciplineChangedData) :
    Bool × DisciplineChangedData :=
  match findIdxOf event_text ':' with
  | none => (false, out)
  | some colon =>
      let rem := (event_text.drop (colon + 1)).dropWhile (· = ' ')
      match findIdxOf rem '/' with
      | none => (false, out)
      | some slash =>
          let class_part := rem.take slash
          let disc_part := rem.drop (slash + 1)
          match parse_named_id class_part out.combat_class with
          | (false, cc) => (false, { out with combat_class := cc })
          | (true, cc) =>
              let out := { out with combat_class := cc }
              match parse_named_id disc_part out.discipline with
              | (false, dsc) => (false, { out with discipline := dsc })
              | (true, dsc) =>
                  (true,
                   { out with
                     discipline := dsc
                     combat_class_enum := cc.id
                     discipline_enum := dsc.id
                     role_enum := deduce_combat_role dsc.id })

/-- `detail::parse_event_field` (swtor_parser.cpp:128): event type name/id,
action name/id, and the special `AreaEntered` / `DisciplineChanged`
payloads. -/
def parse_event_field (event_text value_text angle_text : SV) (out : CombatLine) :
    ParseStatus × CombatLine :=
  if event_text.isEmpty then (ParseStatus.Ok, out)
  else
    let brace := findIdxOf event_text '\x7b'
    let colon := findIdxOf event_text ':'
    let name_end := min (brace.getD event_text.length) (colon.getD event_text.length)
    let name := rstrip (event_text.take name_end)
    let out := { out with event := { out.event with type_name := name } }
    let out :=
      match brace with
      | some b =>
          (match findFrom event_text '\x7d' (b + 1) with
           | some rb =>
               { out with event := { out.event with
                   type_id := strtoull10 (sub event_text (b + 1) (rb - b - 1)) } }
           | none => out)
      | none => out
    let out :=
      match colon with
      | some c =>
          let effect_part := (event_text.drop (c + 1)).dropWhile (· = ' ')
          let lb := rfindIdxOf effect_part '\x7b'
          let rb := rfindIdxOf effect_part '\x7d'
          (match lb, rb with
           | some l, some r =>
               -- the local `eff` is discarded; only action_name/action_id stick
               if r < l then out
               else
                 { out with event := { out.event with
                     action_name := effect_part.take l,
                     action_id := strtoull10 (sub effect_part (l + 1) (r - l - 1)) } }
           | _, _ => out)
      | none => out
    if out.event.matchesType EventType.AreaEntered then
      match parse_area_entered event_text value_text out.area_entered with
      | (false, ae) => (ParseStatus.Malformed, { out with area_entered := ae })
      | (true, ae) =>
          let ae :=
            if (!angle_text.isEmpty) = true ∧ angle_text.head? = some 'v' then
              { ae with version := angle_text }
            else ae
          (ParseStatus.Ok, { out with area_entered := ae })
    else if out.event.matchesType EventType.DisciplineChanged then
      match parse_discipline_changed event_text out.discipline_changed with
      | (false, dc) => (ParseStatus.Malformed, { out with discipline_changed := dc })
      | (true, dc) => (ParseStatus.Ok, { out with discipline_changed := dc })
    else
      (ParseStatus.Ok, { out with event := { out.event with data := event_text } })

/-- `parse_combat_line` (swtor_parser.cpp:802): the public line parser.
Returns the status together with the out-parameter as the C++ leaves it
(partially populated on `Malformed`). -/
def parse_combat_line (line : SV) : ParseStatus × CombatLine :=
  let out : CombatLine := {}
  let cur := 0
  let (tsbr, cur) := next_bracket line cur
  if tsbr.isEmpty then (ParseStatus.Malformed, out)
  else
    match parse_timestamp_hhmmssmmm_struct tsbr out.t with
    | (false, t) => (ParseStatus.Malformed, { out with t := t })
    | (true, t) =>
        let out := { out with t := t }
        let (srcbr, cur) := next_bracket line cur
        if srcbr.isEmpty then (ParseStatus.Malformed, out)
        else
          match parse_entity srcbr out.source with
          | (false, src) => (ParseStatus.Malformed, { out with source := src })
          | (true, src) =>
              let out := { out with source := src }
              let (tgtbr, cur) := next_bracket line cur
              if tgtbr.isEmpty then (ParseStatus.Malformed, out)
              else
                match parse_entity tgtbr out.target with
                | (false, tgt) => (ParseStatus.Malformed, { out with target := tgt })
                | (true, tgt) =>
                    let out := { out with target := tgt }
                    let out :=
                      if (!out.target.empty) = true ∧ out.target.is_same_as_source = true then
                        { out with target := out.source }
                      else out
                    let (abbr, cur) := next_bracket line cur
                    if abbr.isEmpty then (ParseStatus.Malformed, out)
                    else
                      let out := { out with ability := parse_ability abbr out.ability }
                      let (evbr, cur) := next_bracket line cur
                      if evbr.isEmpty then (ParseStatus.Malformed, out)
                      else
                        let probe := cur + ((line.drop cur).takeWhile (· = ' ')).length
                        let (value_text, probe) :=
                          if (line.drop probe).head? = some '(' then
                            extract_parens_content line probe
                          else ([], probe)
                        let angle_text :=
                          if (line.drop probe).head? = some '<' then
                            (extract_angle_content line probe).1
                          else []
                        let event_core := strip_one evbr '[' ']'
                        match parse_event_field event_core value_text angle_text out with
                        | (ParseStatus.Malformed, out) => (ParseStatus.Malformed, out)
                        | (ParseStatus.Ok, out) =>
                            let tailSV :=
                              if cur < line.length then (line.drop cur).dropWhile (· = ' ')
                              else []
                            (ParseStatus.Ok, { out with tail := parse_trailing tailSV })

-- ===================== time cruncher (time_cruncher_swtor.cpp) =====================

/-- `MIDNIGHT_ROLLOVER_THRESHOLD_MS` (time_cruncher_swtor.h:231). -/
def MIDNIGHT_ROLLOVER_THRESHOLD_MS : Int := 60000

/-- `MS_PER_DAY` (time_cruncher_swtor.h:239). -/
def MS_PER_DAY : Int := 86400000

/-- `TimeCruncher::Statistics` (time_cruncher_swtor.h:87). -/
structure TCStatistics where
  total_lines_processed : Nat := 0
  area_entered_count : Nat := 0
  midnight_rollovers_detected : Nat := 0
  time_jumps_detected : Nat := 0
  total_late_arrival_adjustment_ms : Int := 0
  max_late_arrival_ms : Int := 0
  deriving DecidableEq, Repr

/-- The state of `TimeCruncher` (time_cruncher_swtor.h:193-226).  The C++
`base_date_` time point and its `base_date_epoch_ms_` mirror always move
together (`from_time_point` after every assignment), so only the epoch-ms
value is kept.  `midnight_close_` is left uninitialized by the constructor
in the source but is never read before `set_Base_Date` assigns it. -/
structure TimeCruncher where
  initialized : Bool := false
  midnight_close : Bool := false
  base_date_epoch_ms : Int := 0
  current_day_offset : Int := 0
  last_processed_combat_ms : Nat := 0
  last_processed_epoch_ms : Int := 0
  stats : TCStatistics := {}
  deriving DecidableEq, Repr

/-- `TimeCruncher::CloseToMidnightThreshold` (time_cruncher_swtor.h:181). -/
def TimeCruncher.CloseToMidnightThreshold : Int :=
  MS_PER_DAY - MIDNIGHT_ROLLOVER_THRESHOLD_MS

/-- `TimeCruncher::calculateEpochMs` (time_cruncher_swtor.h:167); the
argument is a `uint32_t`, widened to `int64_t` and added to the base. -/
def TimeCruncher.calculateEpochMs (tc : TimeCruncher) (combat_ms : Nat) : Int :=
  tc.base_date_epoch_ms + (combat_ms : Int)

/-- `TimeCruncher::handleMidnightRollover` (time_cruncher_swtor.cpp:162):
one day is added to the base date (`NTPTimeKeeper::adjust_time` with one day
adds exactly `86400000` ms, ntp_timekeeper_swtor.cpp:152) and the rollover
counter is bumped. -/
def TimeCruncher.handleMidnightRollover (tc : TimeCruncher) : TimeCruncher :=
  { tc with
    current_day_offset := tc.current_day_offset + 1
    stats := { tc.stats with
               midnight_rollovers_detected := tc.stats.midnight_rollovers_detected + 1 }
    base_date_epoch_ms := tc.base_date_epoch_ms + MS_PER_DAY }

/-- `TimeCruncher::isAreaEntered` (time_cruncher_swtor.cpp:123). -/
def TimeCruncher.isAreaEntered (line : CombatLine) : Bool :=
  line.matchesType EventType.AreaEntered

/-- The `while (line_time > ntp_now)` day-rollback loop of `set_Base_Date`
(time_cruncher_swtor.cpp:133).  `combat_ms` is a `uint32_t`, so at most
`⌈2^32 / 86400000⌉ + 1 ≤ 51` iterations ever run; fuel 64 is enough. -/
def rollBackDays : Nat → Int → Int → Nat → Int
  | 0, zero_hour, _, _ => zero_hour
  | fuel + 1, zero_hour, ntp_now, combat_ms =>
      if zero_hour + (combat_ms : Int) > ntp_now then
        rollBackDays fuel (zero_hour - MS_PER_DAY) ntp_now combat_ms
      else zero_hour

/-- `TimeCruncher::set_Base_Date` (time_cruncher_swtor.cpp:129).  The NTP
clock reading (`ntp_keeper_->getLocalTime()`) is passed in as `ntp_now`;
`getZeroHour` truncates it to the start of the day
(ntp_timekeeper_swtor.cpp:132, `floor<days>`). -/
def TimeCruncher.set_Base_Date (tc : TimeCruncher) (ntp_now : Int) (line : CombatLine) :
    TimeCruncher :=
  let zero_hour := MS_PER_DAY * (ntp_now.fdiv MS_PER_DAY)
  let zero_hour := rollBackDays 64 zero_hour ntp_now line.t.combat_ms
  { tc with
    midnight_close := false
    base_date_epoch_ms := zero_hour
    current_day_offset := 0
    initialized := true }

/-- `TimeCruncher::initializeBaseDate` (time_cruncher_swtor.cpp:146). -/
def TimeCruncher.initializeBaseDate (tc : TimeCruncher) (ntp_now : Int) (line : CombatLine) :
    TimeCruncher :=
  if TimeCruncher.isAreaEntered line then
    let tc := tc.set_Base_Date ntp_now line
    { tc with stats := { tc.stats with area_entered_count := tc.stats.area_entered_count + 1 } }
  else if tc.initialized = false then tc.set_Base_Date ntp_now line
  else tc

/-- The body of `TimeCruncher::processLine` after `initializeBaseDate`
(time_cruncher_swtor.cpp:87-120), which depends on the line only through its
`combat_ms`: compute `refined_epoch_ms` (the `jump_forward_ms` `int64_t` is
narrowed to `uint32_t` when passed to `calculateEpochMs`), count time jumps,
arm and commit the midnight rollover, update the trackers. -/
def TimeCruncher.processCore (tc : TimeCruncher) (combat_ms : Nat) : TimeCruncher × Int :=
  let refined :=
    if tc.initialized = true ∧ (combat_ms : Int) < MIDNIGHT_ROLLOVER_THRESHOLD_MS * 2 ∧
       tc.midnight_close = true then
      tc.calculateEpochMs ((MS_PER_DAY + (combat_ms : Int)).toNat % 2 ^ 32)
    else
      tc.calculateEpochMs combat_ms
  let tc :=
    if combat_ms < tc.last_processed_combat_ms then
      { tc with stats := { tc.stats with
                           time_jumps_detected := tc.stats.time_jumps_detected + 1 } }
    else tc
  let tc := { tc with last_processed_combat_ms := combat_ms }
  let tc :=
    if (combat_ms : Int) > TimeCruncher.CloseToMidnightThreshold then
      { tc with midnight_close := true }
    else if tc.midnight_close = true ∧ (combat_ms : Int) > MIDNIGHT_ROLLOVER_THRESHOLD_MS / 2 ∧
            (combat_ms : Int) < TimeCruncher.CloseToMidnightThreshold then
      TimeCruncher.handleMidnightRollover { tc with midnight_close := false }
    else tc
  let tc := { tc with
              last_processed_epoch_ms := refined
              stats := { tc.stats with
                         total_lines_processed := tc.stats.total_lines_processed + 1 } }
  (tc, refined)

/-- `TimeCruncher::processLine` (time_cruncher_swtor.cpp:80):
`initializeBaseDate`, then the core, writing `refined_epoch_ms` into the
line.  Returns the updated state and line. -/
def TimeCruncher.processLine (ntp_now : Int) (tc : TimeCruncher) (line : CombatLine) :
    TimeCruncher × CombatLine :=
  let combat_ms := line.t.combat_ms
  let tc := tc.initializeBaseDate ntp_now line
  let res := tc.processCore combat_ms
  (res.1, { line with t := { line.t with refined_epoch_ms := res.2 } })

/-- A `TimeCruncher` in the state reached when `set_Base_Date` on a freshly
constructed cruncher resolved the start of the log day to epoch `E`
(`base_date = E`, not close to midnight, nothing processed yet). -/
def initializedTC (E : Int) : TimeCruncher :=
  { initialized := true, midnight_close := false, base_date_epoch_ms := E }

/-- An ordinary (non-`AreaEntered`) combat line carrying only a time-of-day
value, as fed to the reconstructor in an ordered run. -/
def plainEventLine (c : Nat) : CombatLine :=
  { t := { combat_ms := c }, event := { type_id := EventType.Event } }

/-- Feed a list of `combat_ms` values through `processLine` in order and
collect the `refined_epoch_ms` assigned to each event. -/
def processRunMs : TimeCruncher → List Nat → TimeCruncher × List Int
  | tc, [] => (tc, [])
  | tc, c :: cs =>
      let res := TimeCruncher.processLine 0 tc (plainEventLine c)
      let rest := processRunMs res.1 cs
      (rest.1, res.2.t.refined_epoch_ms :: rest.2)

-- ===================== combat state machine (combat_state.cpp) =====================

/-- `SAME_COMBAT_TIME_AFTER_REVIVE` (combat_state.h:624). -/
def SAME_COMBAT_TIME_AFTER_REVIVE : Int := 15000

/-- The state of `CombatState` (combat_state.h:559-619); field names follow
the source without the trailing underscore.  The `last_combat_line_time_point_`
time point always mirrors `refined_epoch_ms` and is kept as that value. -/
structure CombatState where
  monitor_combat_state : Bool := false
  combat_revive_line : CombatLine := {}
  in_combat : Bool := false
  last_combat_entered : Int := -1
  last_combat_line_time : Int := -1
  last_combat_line : CombatLine := {}
  last_combat_line_time_point_ms : Int := 0
  last_combat_exit : Int := -1
  last_died : Int := -1
  died_in_combat : Bool := false
  all_players_dead : Bool := false
  dead_players : List Entity := []
  fighting_players : List Entity := []
  last_area_entered : AreaEnteredData := {}
  owner : Entity := {}
  owner_dead : Bool := false
  deriving DecidableEq, Repr

/-- `CombatState::combat_state_reset` (combat_state.cpp:385). -/
def CombatState.combat_state_reset (cs : CombatState) : CombatState :=
  { cs with died_in_combat := false, all_players_dead := true, in_combat := false,
            monitor_combat_state := false, fighting_players := [] }

/-- `CombatState::combat_state_players_dead` (combat_state.cpp:312). -/
def CombatState.combat_state_players_dead (cs : CombatState) : Nat := cs.dead_players.length

/-- `CombatState::combat_state_players_in_fight` (combat_state.cpp:316). -/
def CombatState.combat_state_players_in_fight (cs : CombatState) : Nat :=
  cs.fighting_players.length

/-- `CombatState::combat_state_all_players_dead` (combat_state.h:512). -/
def CombatState.combat_state_all_players_dead (cs : CombatState) : Bool :=
  if cs.combat_state_players_in_fight > 1 then
    cs.combat_state_players_dead ≥ cs.combat_state_players_in_fight
  else cs.owner_dead

/-- `CombatState::combat_state_parse_entercombat` (combat_state.cpp:291);
entity comparisons (`line.source == owner_`) are by 64-bit id
(swtor_parser.h:407). -/
def CombatState.combat_state_parse_entercombat (cs : CombatState) (line : CombatLine) :
    CombatState :=
  if cs.in_combat = false then
    let cs := cs.combat_state_reset
    { cs with in_combat := true, last_combat_entered := line.t.refined_epoch_ms,
              last_combat_exit := line.t.refined_epoch_ms }
  else if cs.in_combat = true ∧ cs.died_in_combat = true ∧ line.source.id = cs.owner.id ∧
          cs.monitor_combat_state = true then
    let time_diff := line.t.refined_epoch_ms - cs.combat_revive_line.t.refined_epoch_ms
    if time_diff < SAME_COMBAT_TIME_AFTER_REVIVE then
      { cs with monitor_combat_state := false, died_in_combat := false }
    else
      let cs := cs.combat_state_reset
      { cs with in_combat := true, last_combat_entered := line.t.refined_epoch_ms,
                last_combat_exit := line.t.refined_epoch_ms }
  else cs

/-- `CombatState::combat_state_parse_disciplinechange` (combat_state.cpp:320). -/
def CombatState.combat_state_parse_disciplinechange (cs : CombatState) (line : CombatLine) :
    CombatState :=
  if cs.in_combat then
    if cs.fighting_players.any (fun e => e.id = line.source.id) then cs
    else { cs with fighting_players := cs.fighting_players ++ [line.source] }
  else cs

/-- `CombatState::combat_state_parse_areaenter` (combat_state.cpp:330). -/
def CombatState.combat_state_parse_areaenter (cs : CombatState) (line : CombatLine) :
    CombatState :=
  { cs with owner_dead := false, in_combat := false, last_combat_entered := -1,
            died_in_combat := false, last_area_entered := line.area_entered,
            owner := line.source, dead_players := [], all_players_dead := false,
            fighting_players := [], last_died := -1, monitor_combat_state := false }

/-- `CombatState::combat_state_parse_revive` (combat_state.cpp:345). -/
def CombatState.combat_state_parse_revive (cs : CombatState) (line : CombatLine) :
    CombatState :=
  let cs :=
    if cs.owner.id = line.source.id then
      let cs := { cs with owner_dead := false, monitor_combat_state := true,
                          combat_revive_line := line }
      let cs := if cs.all_players_dead then { cs with in_combat := false } else cs
      { cs with all_players_dead := false }
    else cs
  let cs :=
    if !cs.dead_players.isEmpty then
      { cs with dead_players := cs.dead_players.eraseP (fun e => e.id = line.source.id) }
    else cs
  { cs with all_players_dead := cs.combat_state_all_players_dead }

/-- `CombatState::combat_state_parse_death` (combat_state.cpp:364). -/
def CombatState.combat_state_parse_death (cs : CombatState) (line : CombatLine) :
    CombatState :=
  let cs :=
    if cs.owner.id = line.target.id then
      { cs with owner_dead := true, last_died := line.t.refined_epoch_ms,
                died_in_combat := true }
    else cs
  let cs :=
    if line.target.is_player then
      if cs.dead_players.any (fun e => e.id = line.target.id) then cs
      else { cs with dead_players := cs.dead_players ++ [line.target] }
    else cs
  if cs.in_combat = true ∧ cs.combat_state_all_players_dead = true then
    { cs with all_players_dead := true, in_combat := false,
              last_combat_exit := line.t.refined_epoch_ms, monitor_combat_state := false }
  else cs

/-- `CombatState::combat_state_parse_exitcombat` (combat_state.cpp:393). -/
def CombatState.combat_state_parse_exitcombat (cs : CombatState) (_line : CombatLine) :
    CombatState :=
  { cs.combat_state_reset with in_combat := false }

/-- `CombatState::combat_state_parse_damage` (combat_state.cpp:398). -/
def CombatState.combat_state_parse_damage (cs : CombatState) (line : CombatLine) :
    CombatState :=
  if cs.in_combat = true ∧ cs.died_in_combat = true ∧ line.source.id = cs.owner.id ∧
     cs.monitor_combat_state = true then
    let time_diff := line.t.refined_epoch_ms - cs.combat_revive_line.t.refined_epoch_ms
    if time_diff < SAME_COMBAT_TIME_AFTER_REVIVE then
      { cs with monitor_combat_state := false, died_in_combat := false }
    else cs.combat_state_reset
  else cs

/-- `CombatState::ParseLine` (combat_state.cpp:411): record the line, then
dispatch on event kind in source order. -/
def CombatState.ParseLine (cs : CombatState) (line : CombatLine) : CombatState :=
  let cs := { cs with last_combat_line_time := line.t.refined_epoch_ms,
                      last_combat_line_time_point_ms := line.t.refined_epoch_ms,
                      last_combat_line := line }
  if line.matchesAction EventActionType.EnterCombat then
    cs.combat_state_parse_entercombat line
  else if line.matchesType EventType.AreaEntered then
    cs.combat_state_parse_areaenter line
  else if line.matchesAction EventActionType.Revived then
    cs.combat_state_parse_revive line
  else if line.matchesAction EventActionType.Death then
    cs.combat_state_parse_death line
  else if line.matchesAction EventActionType.Damage then
    cs.combat_state_parse_damage line
  else if line.matchesType EventType.DisciplineChanged then
    cs.combat_state_parse_disciplinechange line
  else if line.matchesAction EventActionType.ExitCombat then
    cs.combat_state_parse_exitcombat line
  else cs

/-- `CombatState::reset` (combat_state.h:486). -/
def CombatState.resetAll (cs : CombatState) : CombatState :=
  { cs.combat_state_reset with dead_players := [] }

/-- `CombatState::is_in_combat` (combat_state.h:432). -/
def CombatState.is_in_combat (cs : CombatState) : Bool := cs.in_combat

-- ===================== entity registry (combat_state.cpp) =====================

/-- `uint64_t` wrap of an `int64_t` summand (the usual arithmetic
conversion when adding a signed amount to an unsigned counter). -/
def u64OfInt (n : Int) : Nat := (n % (2 ^ 64 : Int)).toNat

/-- `counter += amount` on a `uint64_t` counter. -/
def u64add (a : Nat) (b : Int) : Nat := (a + u64OfInt b) % 2 ^ 64

/-- `static_cast<uint64_t>` of a `double`: truncation toward zero for
non-negative in-range values.  Negative or out-of-range doubles are
undefined behaviour in the source and are mapped to 0 here. -/
def u64OfRat (q : ℚ) : Nat := q.floor.toNat % 2 ^ 64

/-- `counter++` on a `uint16_t` counter. -/
def u16inc (a : Nat) : Nat := (a + 1) % 2 ^ 16

/-- `Applied_Effect` (combat_state.h:20). -/
structure Applied_Effect where
  id : Nat := 0
  source_id : Nat := 0
  target_id : Nat := 0
  ability_id : Nat := 0
  charges : Int := 0
  applied_time_ms : Int := 0
  applied_line : CombatLine := {}
  deriving DecidableEq, Repr

/-- The `Applied_Effect(CombatLine&)` constructor (combat_state.h:36). -/
def Applied_Effect.ofLine (line : CombatLine) : Applied_Effect :=
  { id := line.event.action_id, source_id := line.source.id, target_id := line.target.id,
    ability_id := line.ability.id, charges := line.tail.charges,
    applied_time_ms := line.t.refined_epoch_ms, applied_line := line }

/-- `Applied_Effect::update` (combat_state.h:51): overwrites every field
from the line (the same assignments as the constructor). -/
def Applied_Effect.update (_p : Applied_Effect) (line : CombatLine) : Applied_Effect :=
  Applied_Effect.ofLine line

/-- `operator==(const CombatLine&, const Applied_Effect&)`
(combat_state.h:139): action id, target id and source id all match. -/
def Applied_Effect.matchesLine (p : Applied_Effect) (line : CombatLine) : Bool :=
  p.id = line.event.action_id && p.target_id = line.target.id && p.source_id = line.source.id

/-- `EntityState` (combat_state.h:145).  The C++ `target_owner` is a
`shared_ptr<EntityState>`; it is modelled as the index (into the manager's
list) of the entity state it pointed to when assigned. -/
structure EntityState where
  id : Nat := 0
  entity : Entity := {}
  target : Entity := {}
  target_owner : Option Nat := none
  owner : Bool := false
  death_count : Int := 0
  revive_count : Int := 0
  total_damage_taken : Nat := 0
  total_healing_taken : Nat := 0
  total_damage_done : Nat := 0
  total_healing_done : Nat := 0
  total_overheal_done : Nat := 0
  total_absorb_done : Nat := 0
  total_threat : Nat := 0
  total_shielding_done : Nat := 0
  total_defect_done : Nat := 0
  total_dodge_done : Nat := 0
  total_glance_done : Nat := 0
  total_parry_done : Nat := 0
  total_resist_done : Nat := 0
  total_miss_done : Nat := 0
  total_immune_done : Nat := 0
  is_dead : Bool := false
  Effects : List Applied_Effect := []
  AppliedBy : List Applied_Effect := []
  deriving DecidableEq, Repr

/-- The `EntityState(Entity)` constructor (combat_state.h:161). -/
def EntityState.ofEntity (ent : Entity) : EntityState := { id := ent.id, entity := ent }

/-- `EntityState::is_player` (combat_state.h:292). -/
def EntityState.is_player (es : EntityState) : Bool := es.entity.is_player

/-- `EntityState::is_companion` (combat_state.h:297). -/
def EntityState.is_companion (es : EntityState) : Bool := es.entity.is_companion

/-- `EntityManager` (combat_state.h:321). -/
structure EntityManager where
  entities : List EntityState := []
  last_combat_state : Bool := false
  deriving DecidableEq, Repr

/-- `EntityManager::reset` (combat_state.h:379). -/
def EntityManager.reset (em : EntityManager) : EntityManager :=
  { em with entities := [], last_combat_state := false }

/-- `EntityManager::entity(uint64_t id)` (combat_state.cpp:7): scan for the
first state with this id; `nullptr` (here `none`) when absent.  The entity
list is not touched. -/
def EntityManager.entityById (em : EntityManager) (id : Nat) : Option EntityState :=
  em.entities.find? (fun es => es.id = id)

/-- `EntityManager::entity(Entity&)` (combat_state.cpp:16): return the first
state with a matching id, or create, append and return a new state.  The
possibly grown manager is returned alongside. -/
def EntityManager.entityEnt (em : EntityManager) (ent : Entity) : EntityState × EntityManager :=
  match em.entities.find? (fun es => es.id = ent.id) with
  | some es => (es, em)
  | none =>
      let nes := EntityState.ofEntity ent
      (nes, { em with entities := em.entities ++ [nes] })

/-- The counter-zeroing branch of `new_combat_reset` (combat_state.cpp:50-67). -/
def EntityState.zeroCounters (es : EntityState) : EntityState :=
  { es with
    target_owner := none
    death_count := 0
    revive_count := 0
    total_damage_taken := 0
    total_healing_taken := 0
    total_damage_done := 0
    total_healing_done := 0
    total_overheal_done := 0
    total_absorb_done := 0
    total_threat := 0
    total_shielding_done := 0
    total_defect_done := 0
    total_glance_done := 0
    total_dodge_done := 0
    total_parry_done := 0
    total_resist_done := 0
    total_miss_done := 0
    total_immune_done := 0 }

/-- `EntityManager::new_combat_reset` (combat_state.cpp:44): evict every
non-player, non-companion state and zero the counters of the rest. -/
def EntityManager.new_combat_reset (em : EntityManager) : EntityManager :=
  let kept := em.entities.filter (fun (es : EntityState) => es.is_player || es.is_companion)
  { em with entities := kept.map EntityState.zeroCounters }

/-- `EntityManager::combat_state_update` (combat_state.h:361). -/
def EntityManager.combat_state_update (em : EntityManager) (in_combat : Bool) :
    EntityManager :=
  if em.last_combat_state ≠ in_combat then
    let em := { em with last_combat_state := in_combat }
    if in_combat then em.new_combat_reset else em
  else em

/-- Modify the element at index `i`, when in range (pointer writes through a
`shared_ptr` picked out of the list). -/
def modAt (l : List EntityState) (i : Nat) (f : EntityState → EntityState) :
    List EntityState :=
  match l[i]? with
  | some a => l.set i (f a)
  | none => l

/-- Recursion for `lastIdxWith`: the scan keeps overwriting its pointer, so
a match further right wins over one at the current position `k`. -/
def lastIdxWithAux (idv : Nat) : List EntityState → Nat → Option Nat
  | [], _ => none
  | e :: rest, k =>
      match lastIdxWithAux idv rest (k + 1) with
      | some j => some j
      | none => if e.id = idv then some k else none

/-- The index the `for` scan of `EntityManager::ParseLine`
(combat_state.cpp:96) leaves in its pointer: the last position whose
state id equals `id`. -/
def lastIdxWith (l : List EntityState) (id : Nat) : Option Nat :=
  lastIdxWithAux id l 0

/-- The lookup-and-create phase of `EntityManager::ParseLine`
(combat_state.cpp:82-113): resolve the source and target pointers, creating
and appending missing states (the target only when non-empty and of a
different id than the source).  The `entities_.empty()` fast branch of the
source performs the same creations and push-backs as the general branch.
Returns the grown list, the source index, and the optional target index. -/
def resolveEntities (es0 : List EntityState) (line : CombatLine) :
    List EntityState × Nat × Option Nat :=
  let tIdx0 := lastIdxWith es0 line.target.id
  match lastIdxWith es0 line.source.id with
  | some i =>
      if line.target.empty then (es0, i, tIdx0)
      else
        match tIdx0 with
        | some j => (es0, i, some j)
        | none =>
            if line.source.id ≠ line.target.id then
              (es0 ++ [EntityState.ofEntity line.target], i, some es0.length)
            else (es0, i, none)
  | none =>
      let es1 := es0 ++ [EntityState.ofEntity line.source]
      if line.target.empty then (es1, es0.length, tIdx0)
      else
        match tIdx0 with
        | some j => (es1, es0.length, some j)
        | none =>
            if line.source.id ≠ line.target.id then
              (es1 ++ [EntityState.ofEntity line.target], es0.length, some es1.length)
            else (es1, es0.length, none)

/-- `source->entity` / `target->entity` overwrites (combat_state.cpp:114-119). -/
def entityOverwriteUpd (line : CombatLine) (sIdx : Nat) (tIdx? : Option Nat)
    (es : List EntityState) : List EntityState :=
  let es := modAt es sIdx (fun e => { e with entity := line.source })
  match tIdx? with
  | some t => modAt es t (fun e => { e with entity := line.target })
  | none => es

/-- The Death block (combat_state.cpp:120). -/
def deathUpd (line : CombatLine) (_sIdx : Nat) (tIdx? : Option Nat)
    (es : List EntityState) : List EntityState :=
  if line.matchesAction EventActionType.Death then
    match tIdx? with
    | some t =>
        modAt es t (fun e => { e with is_dead := true, death_count := e.death_count + 1 })
    | none => es
  else es

/-- The Revived block (combat_state.cpp:126). -/
def reviveUpd (line : CombatLine) (sIdx : Nat) (_tIdx? : Option Nat)
    (es : List EntityState) : List EntityState :=
  if line.matchesAction EventActionType.Revived then
    modAt es sIdx (fun e => { e with is_dead := false, revive_count := e.revive_count + 1 })
  else es

/-- The Damage block (combat_state.cpp:132): damage done plus the
`static_cast<uint64_t>` of the threat on the source, damage taken on the
target. -/
def damageUpd (line : CombatLine) (sIdx : Nat) (tIdx? : Option Nat)
    (es : List EntityState) : List EntityState :=
  if line.matchesAction EventActionType.Damage then
    let es := modAt es sIdx (fun e =>
      { e with
        total_damage_done := u64add e.total_damage_done line.tail.val.amount
        total_threat := (e.total_threat + u64OfRat line.tail.threat) % 2 ^ 64 })
    match tIdx? with
    | some t =>
        modAt es t (fun e =>
          { e with total_damage_taken := u64add e.total_damage_taken line.tail.val.amount })
    | none => es
  else es

/-- The Heal block (combat_state.cpp:141). -/
def healUpd (line : CombatLine) (sIdx : Nat) (tIdx? : Option Nat)
    (es : List EntityState) : List EntityState :=
  if line.matchesAction EventActionType.Heal then
    let es := modAt es sIdx (fun e =>
      { e with
        total_healing_done := u64add e.total_healing_done line.tail.val.amount
        total_overheal_done := u64add e.total_overheal_done
          (if line.tail.val.has_secondary then line.tail.val.secondary else 0) })
    match tIdx? with
    | some t =>
        modAt es t (fun e =>
          { e with total_healing_taken := u64add e.total_healing_taken line.tail.val.amount })
    | none => es
  else es

/-- The ModifyThreat block (combat_state.cpp:150). -/
def modifyThreatUpd (line : CombatLine) (sIdx : Nat) (_tIdx? : Option Nat)
    (es : List EntityState) : List EntityState :=
  if line.matchesAction EventActionType.ModifyThreat then
    modAt es sIdx (fun e =>
      { e with total_threat := (e.total_threat + u64OfRat line.tail.threat) % 2 ^ 64 })
  else es

/-- `AreaEntered` marks the source as owner (combat_state.cpp:156). -/
def ownerUpd (line : CombatLine) (sIdx : Nat) (_tIdx? : Option Nat)
    (es : List EntityState) : List EntityState :=
  if line.matchesType EventType.AreaEntered then
    modAt es sIdx (fun e => { e with owner := true })
  else es

/-- The TargetSet block (combat_state.cpp:162); `target_owner` records which
state the shared pointer aimed at. -/
def targetSetUpd (line : CombatLine) (sIdx : Nat) (tIdx? : Option Nat)
    (es : List EntityState) : List EntityState :=
  if line.matchesAction EventActionType.TargetSet then
    match tIdx? with
    | some t =>
        modAt es sIdx (fun e => { e with target := line.target, target_owner := some t })
    | none => es
  else es

/-- The TargetCleared block (combat_state.cpp:170); the target is reset to
the manager's `empty_entity_` (a default `Entity`). -/
def targetClearedUpd (line : CombatLine) (sIdx : Nat) (_tIdx? : Option Nat)
    (es : List EntityState) : List EntityState :=
  if line.matchesAction EventActionType.TargetCleared then
    modAt es sIdx (fun e => { e with target := ({} : Entity), target_owner := none })
  else es

/-- The mitigation-counter switch (combat_state.cpp:177): exact-value cases
over the flag set; combined flags fall through to `default`. -/
def mitigUpd (line : CombatLine) (sIdx : Nat) (_tIdx? : Option Nat)
    (es : List EntityState) : List EntityState :=
  if line.tail.kind ≠ ValueKind.None then
    if line.tail.val.mitig = MitigationFlags.Shield then
      modAt es sIdx (fun e =>
        { e with
          total_shielding_done := u16inc e.total_shielding_done
          total_absorb_done := u64add e.total_absorb_done line.tail.val.shield.absorbed })
    else if line.tail.val.mitig = MitigationFlags.Deflect then
      modAt es sIdx (fun e => { e with total_defect_done := u16inc e.total_defect_done })
    else if line.tail.val.mitig = MitigationFlags.Glance then
      modAt es sIdx (fun e => { e with total_glance_done := u16inc e.total_glance_done })
    else if line.tail.val.mitig = MitigationFlags.Dodge then
      modAt es sIdx (fun e => { e with total_dodge_done := u16inc e.total_dodge_done })
    else if line.tail.val.mitig = MitigationFlags.Parry then
      modAt es sIdx (fun e => { e with total_parry_done := u16inc e.total_parry_done })
    else if line.tail.val.mitig = MitigationFlags.Resist then
      modAt es sIdx (fun e => { e with total_resist_done := u16inc e.total_resist_done })
    else if line.tail.val.mitig = MitigationFlags.Miss then
      modAt es sIdx (fun e => { e with total_miss_done := u16inc e.total_miss_done })
    else if line.tail.val.mitig = MitigationFlags.Immune then
      modAt es sIdx (fun e => { e with total_immune_done := u16inc e.total_immune_done })
    else es
  else es

/-- The ApplyEffect block (combat_state.cpp:224), for non-Damage, non-Heal
lines with a resolved target: update the first matching entry of the
target's `Effects` or append a new one; then update the first matching entry
of the source's `AppliedBy` — but when none matches there, the new symmetric
entry is pushed onto the TARGET's `AppliedBy` (combat_state.cpp:252), not
the source's. -/
def applyEffectUpd (line : CombatLine) (sIdx : Nat) (tIdx? : Option Nat)
    (es : List EntityState) : List EntityState :=
  if line.matchesType EventType.ApplyEffect = true ∧
     line.matchesAction EventActionType.Damage = false ∧
     line.matchesAction EventActionType.Heal = false then
    match tIdx? with
    | some t =>
        let es := modAt es t (fun e =>
          { e with Effects :=
              match e.Effects.findIdx? (fun (p : Applied_Effect) => p.matchesLine line) with
              | some i => e.Effects.set i (Applied_Effect.ofLine line)
              | none => e.Effects ++ [Applied_Effect.ofLine line] })
        let sfound :=
          match es[sIdx]? with
          | some e => (e.AppliedBy.findIdx? (fun (p : Applied_Effect) => p.matchesLine line)).isSome
          | none => false
        if sfound then
          modAt es sIdx (fun e =>
            { e with AppliedBy :=
                match e.AppliedBy.findIdx? (fun (p : Applied_Effect) => p.matchesLine line) with
                | some i => e.AppliedBy.set i (Applied_Effect.ofLine line)
                | none => e.AppliedBy })
        else
          modAt es t (fun e => { e with AppliedBy := e.AppliedBy ++ [Applied_Effect.ofLine line] })
    | none => es
  else es

/-- The RemoveEffect block (combat_state.cpp:256): erase every matching
entry from the target's `Effects` and the source's `AppliedBy`. -/
def removeEffectUpd (line : CombatLine) (sIdx : Nat) (tIdx? : Option Nat)
    (es : List EntityState) : List EntityState :=
  if line.matchesType EventType.RemoveEffect = true ∧
     line.matchesAction EventActionType.Damage = false ∧
     line.matchesAction EventActionType.Heal = false then
    match tIdx? with
    | some t =>
        let es := modAt es t (fun e =>
          { e with Effects := e.Effects.filter (fun (p : Applied_Effect) => !(p.matchesLine line)) })
        modAt es sIdx (fun e =>
          { e with AppliedBy := e.AppliedBy.filter (fun (p : Applied_Effect) => !(p.matchesLine line)) })
    | none => es
  else es

/-- The ModifyCharges block (combat_state.cpp:273): update every matching
entry on both sides. -/
def modifyChargesUpd (line : CombatLine) (sIdx : Nat) (tIdx? : Option Nat)
    (es : List EntityState) : List EntityState :=
  if line.matchesType EventType.ModifyCharges = true ∧
     line.matchesAction EventActionType.Damage = false ∧
     line.matchesAction EventActionType.Heal = false then
    match tIdx? with
    | some t =>
        let es := modAt es t (fun e =>
          { e with Effects := e.Effects.map (fun (p : Applied_Effect) =>
              if p.matchesLine line then Applied_Effect.ofLine line else p) })
        modAt es sIdx (fun e =>
          { e with AppliedBy := e.AppliedBy.map (fun (p : Applied_Effect) =>
              if p.matchesLine line then Applied_Effect.ofLine line else p) })
    | none => es
  else es

/-- `EntityManager::ParseLine` (combat_state.cpp:76).  The source and target
`shared_ptr`s are modelled as indices into the entity list (`sIdx`, `tIdx?`),
so writes through an aliased pointer (`source.id == target.id`) land on the
same record.  The event blocks run in source order. -/
def EntityManager.ParseLine (em : EntityManager) (line : CombatLine) : EntityManager :=
  let em := if line.matchesType EventType.AreaEntered then em.reset else em
  let r := resolveEntities em.entities line
  let es := r.1
  let sIdx := r.2.1
  let tIdx? := r.2.2
  let es := entityOverwriteUpd line sIdx tIdx? es
  let es := deathUpd line sIdx tIdx? es
  let es := reviveUpd line sIdx tIdx? es
  let es := damageUpd line sIdx tIdx? es
  let es := healUpd line sIdx tIdx? es
  let es := modifyThreatUpd line sIdx tIdx? es
  let es := ownerUpd line sIdx tIdx? es
  let es := targetSetUpd line sIdx tIdx? es
  let es := targetClearedUpd line sIdx tIdx? es
  let es := mitigUpd line sIdx tIdx? es
  let es := applyEffectUpd line sIdx tIdx? es
  let es := removeEffectUpd line sIdx tIdx? es
  let es := modifyChargesUpd line sIdx tIdx? es
  { em with entities := es }

-- ===================== pipeline manager (parse_manager.cpp) =====================

/-- The built-in stages owned by `plugin_manager` (parse_manager.h:14,
parse_manager.cpp:5).  External plugins are opaque foreign processors; the
registration list and the `ingest` dispatch loop over it (and the
`reset_plugins` call, which only touches those plugins) are outside the
model, which covers the built-in stages the events flow through. -/
structure plugin_manager where
  time_cruncher : TimeCruncher := {}
  combat_state : CombatState := {}
  entities : EntityManager := {}
  last_line : CombatLine := {}
  last_area_enter : CombatLine := {}
  last_enter_combat : CombatLine := {}
  deriving DecidableEq, Repr

/-- The `plugin_manager()` constructor (parse_manager.cpp:5), which calls
`combat_state->reset()` on the fresh state machine. -/
def plugin_manager.init : plugin_manager :=
  { combat_state := CombatState.resetAll {} }

/-- `plugin_manager::process_line(CombatLine&)` (parse_manager.cpp:30):
time cruncher, state machine, registry combat-state update, registry
ingest, then the cached last-event bookkeeping.  `ntp_now` stands for the
clock reading the time cruncher would obtain on (re)initialization. -/
def plugin_manager.process_line (ntp_now : Int) (st : plugin_manager) (line : CombatLine) :
    plugin_manager × CombatLine :=
  let (tc, line) := TimeCruncher.processLine ntp_now st.time_cruncher line
  let cs := st.combat_state.ParseLine line
  let em := st.entities.combat_state_update cs.is_in_combat
  let em := em.ParseLine line
  let st := { st with time_cruncher := tc, combat_state := cs, entities := em }
  let st :=
    if line.matchesType EventType.AreaEntered then { st with last_area_enter := line } else st
  let st :=
    if line.matchesAction EventActionType.EnterCombat then
      { st with last_enter_combat := line }
    else st
  let st := { st with last_line := line }
  let st :=
    if line.matchesType EventType.AreaEntered then { st with last_area_enter := line } else st
  let st :=
    if line.matchesAction EventActionType.EnterCombat then
      { st with last_enter_combat := line }
    else st
  (st, line)

/-- `plugin_manager::process_line(std::string)` (parse_manager.cpp:56): the
parse status is assigned to a local and never examined — the line record is
fed to the pipeline whether or not parsing succeeded. -/
def plugin_manager.process_line_str (ntp_now : Int) (st : plugin_manager) (str_line : SV) :
    plugin_manager × CombatLine :=
  let (_status, line) := parse_combat_line str_line
  plugin_manager.process_line ntp_now st line

-- ===================== run predicates and fixtures =====================

/-- A run sequence is non-decreasing (the monotonicity post-condition on the
emitted `refined_epoch_ms` values). -/
def nonDecrB : List Int → Bool
  | a :: b :: r => a ≤ b && nonDecrB (b :: r)
  | _ => true

/-- The ordered-run premise as the claim states it: every timestamp is a
time of day (`combat_ms < MS_PER_DAY`); `combat_ms` is non-decreasing within
a day and any decrease is a midnight boundary, so every such list is an
ordered run for a suitable assignment of days. -/
def orderedRunC1 (cs : List Nat) : Bool := cs.all (· < 86400000)

/-- One admissible step of a *tight* ordered run, given the reconstructor
state: the next `combat_ms` is a time of day and either does not decrease,
or crosses midnight from within `MIDNIGHT_ROLLOVER_THRESHOLD_MS` of
midnight to below twice that threshold; and while a crossing is pending
(armed and not yet committed), the first event past the commit floor
(`MIDNIGHT_ROLLOVER_THRESHOLD_MS / 2`) lands below twice the threshold. -/
def okStepTC (tc : TimeCruncher) (c : Nat) : Prop :=
  (c : Int) < MS_PER_DAY ∧
  (tc.last_processed_combat_ms ≤ c ∨
     ((tc.last_processed_combat_ms : Int) > TimeCruncher.CloseToMidnightThreshold ∧
      (c : Int) < 2 * MIDNIGHT_ROLLOVER_THRESHOLD_MS)) ∧
  (tc.midnight_close = true →
   (tc.last_processed_combat_ms : Int) ≤ MIDNIGHT_ROLLOVER_THRESHOLD_MS / 2 →
   (c : Int) > MIDNIGHT_ROLLOVER_THRESHOLD_MS / 2 →
   (c : Int) < 2 * MIDNIGHT_ROLLOVER_THRESHOLD_MS)

instance (tc : TimeCruncher) (c : Nat) : Decidable (okStepTC tc c) := by
  unfold okStepTC; infer_instance

/-- A tight ordered run from a given reconstructor state: every step is
admissible for the state reached so far. -/
def okRunTC : TimeCruncher → List Nat → Prop
  | _, [] => True
  | tc, c :: cs =>
      okStepTC tc c ∧ okRunTC (TimeCruncher.processLine 0 tc (plainEventLine c)).1 cs

instance instDecOkRunTC : (tc : TimeCruncher) → (cs : List Nat) → Decidable (okRunTC tc cs)
  | _, [] => Decidable.isTrue trivial
  | tc, c :: cs =>
      have : Decidable (okRunTC (TimeCruncher.processLine 0 tc (plainEventLine c)).1 cs) :=
        instDecOkRunTC _ cs
      by unfold okRunTC; infer_instance

/-- The invariant tying the reconstructor state to the last emitted
`refined_epoch_ms` value `R`: either no crossing is pending and `R` sits on
the current base day, or the rollover is armed just before midnight, or a
crossing has happened and `R` sits one day ahead of the (not yet committed)
base. -/
def goodStateTC (tc : TimeCruncher) (R : Int) : Prop :=
  tc.initialized = true ∧
  ((tc.midnight_close = false ∧
      R = tc.base_date_epoch_ms + (tc.last_processed_combat_ms : Int) ∧
      (tc.last_processed_combat_ms : Int) ≤ TimeCruncher.CloseToMidnightThreshold) ∨
   (tc.midnight_close = true ∧
      (tc.last_processed_combat_ms : Int) > TimeCruncher.CloseToMidnightThreshold ∧
      (tc.last_processed_combat_ms : Int) < MS_PER_DAY ∧
      R = tc.base_date_epoch_ms + (tc.last_processed_combat_ms : Int)) ∨
   (tc.midnight_close = true ∧
      (tc.last_processed_combat_ms : Int) ≤ MIDNIGHT_ROLLOVER_THRESHOLD_MS / 2 ∧
      R = tc.base_date_epoch_ms + MS_PER_DAY + (tc.last_processed_combat_ms : Int)))

/-- Registry operations as driven by the pipeline: event ingestion and the
combat-state notifications that may trigger `new_combat_reset`. -/
inductive RegistryOp where
  | line (l : CombatLine)
  | combatUpdate (b : Bool)
  deriving DecidableEq

/-- Apply one registry operation. -/
def applyOp (em : EntityManager) : RegistryOp → EntityManager
  | RegistryOp.line l => em.ParseLine l
  | RegistryOp.combatUpdate b => em.combat_state_update b

/-- Apply a sequence of registry operations in order. -/
def applyOps (em : EntityManager) (ops : List RegistryOp) : EntityManager :=
  ops.foldl applyOp em

/-- The operation is not a Damage event whose source has id `i`. -/
def noDamageFrom (i : Nat) : RegistryOp → Prop
  | RegistryOp.line l => ¬(l.matchesAction EventActionType.Damage = true ∧ l.source.id = i)
  | RegistryOp.combatUpdate _ => True

instance (i : Nat) : (op : RegistryOp) → Decidable (noDamageFrom i op)
  | RegistryOp.line l =>
      inferInstanceAs
        (Decidable ¬(l.matchesAction EventActionType.Damage = true ∧ l.source.id = i))
  | RegistryOp.combatUpdate _ => isTrue trivial

/-- Every tracked state with id `i` has a zero damage-done counter. -/
def ZeroDamageAt (em : EntityManager) (i : Nat) : Prop :=
  ∀ es ∈ em.entities, es.id = i → es.total_damage_done = 0

instance (em : EntityManager) (i : Nat) : Decidable (ZeroDamageAt em i) :=
  inferInstanceAs (Decidable (∀ es ∈ em.entities, es.id = i → es.total_damage_done = 0))

/-- The per-state form of `ZeroDamageAt`: a state carrying id `i` has a zero
`total_damage_done` counter. -/
def PDam (i : Nat) (es : EntityState) : Prop :=
  es.id = i → es.total_damage_done = 0

-- fixtures for the scenario claims

/-- A player entity with the given id. -/
def mkPlayer (i : Nat) : Entity := { id := i, is_player := true }

/-- A generic `[Event {…}: Action {…}]` line with a reconstructed epoch. -/
def evLine (act : Nat) (src tgt : Entity) (ep : Int) : CombatLine :=
  { t := { refined_epoch_ms := ep }, source := src, target := tgt,
    event := { type_id := EventType.Event, action_id := act } }

/-- An `AreaEntered` line. -/
def areaLine (src : Entity) : CombatLine :=
  { source := src, event := { type_id := EventType.AreaEntered } }

/-- A `DisciplineChanged` line. -/
def discLine (src : Entity) : CombatLine :=
  { source := src, event := { type_id := EventType.DisciplineChanged } }

/-- The logging player of the revive-merge scenario. -/
def c3Owner : Entity := mkPlayer 10

/-- A second grouped player, so the owner's death does not end the fight by
the all-players-dead rule. -/
def c3Ally : Entity := mkPlayer 20

/-- A third player whose unrelated revive recomputes the stale
`all_players_dead` flag. -/
def c3Stranger : Entity := mkPlayer 30

/-- The revive-merge scenario: area enter, combat entered at epoch 1000 with
two registered fighting players, owner death at T = 50000, owner revive at
T + 2000, then `EnterCombat` at `enterEp`.  With `priorRevive` an unrelated
revive event occurs mid-fight, which recomputes the `all_players_dead` flag
left `true` by `combat_state_reset`. -/
def c3Run (priorRevive : Bool) (enterEp : Int) : CombatState :=
  let cs := CombatState.resetAll {}
  let cs := cs.ParseLine (areaLine c3Owner)
  let cs := cs.ParseLine (evLine EventActionType.EnterCombat c3Owner c3Owner 1000)
  let cs := cs.ParseLine (discLine c3Owner)
  let cs := cs.ParseLine (discLine c3Ally)
  let cs := if priorRevive then
      cs.ParseLine (evLine EventActionType.Revived c3Stranger c3Stranger 40000)
    else cs
  let cs := cs.ParseLine (evLine EventActionType.Death c3Ally c3Owner 50000)
  let cs := cs.ParseLine (evLine EventActionType.Revived c3Owner c3Owner 52000)
  cs.ParseLine (evLine EventActionType.EnterCombat c3Owner c3Owner enterEp)

/-- An `ApplyEffect` line (neither Damage nor Heal) from entity 1 onto
entity 2. -/
def c7ApplyLine : CombatLine :=
  { source := { id := 1, is_player := true }, target := { id := 2, is_player := true },
    event := { type_id := EventType.ApplyEffect, action_id := 777 },
    ability := { id := 55 } }

/-- The rational 27/10 (threat 2.7), written in lowest terms so that kernel
reduction can evaluate it. -/
def ratTwoPoint7 : ℚ := Rat.mk' 27 10 (by norm_num) (by norm_num)

/-- A Damage line from entity 1 onto entity 2 carrying a threat value. -/
def c8DmgLine (q : ℚ) (amt : Int) : CombatLine :=
  { source := { id := 1 }, target := { id := 2 },
    event := { type_id := EventType.ApplyEffect, action_id := EventActionType.Damage },
    tail := { kind := ValueKind.Numeric, val := { amount := amt },
              has_threat := true, threat := q } }

/-- A ModifyThreat line from entity 1 carrying a threat value. -/
def c8ModifyThreatLine (q : ℚ) : CombatLine :=
  { source := { id := 1 }, target := { id := 2 },
    event := { type_id := EventType.Event, action_id := EventActionType.ModifyThreat },
    tail := { kind := ValueKind.None, has_threat := true, threat := q } }

/-- A Heal line from entity 1 carrying a threat value. -/
def c8HealLine (q : ℚ) : CombatLine :=
  { source := { id := 1 }, target := { id := 2 },
    event := { type_id := EventType.ApplyEffect, action_id := EventActionType.Heal },
    tail := { kind := ValueKind.Numeric, val := { amount := 500 },
              has_threat := true, threat := q } }

/-- A Damage line whose tail carries a lone Shield mitigation flag with an
absorbed amount. -/
def c8ShieldLine (absorbed : Int) : CombatLine :=
  { source := { id := 1 }, target := { id := 2 },
    event := { type_id := EventType.ApplyEffect, action_id := EventActionType.Damage },
    tail := { kind := ValueKind.Numeric,
              val := { amount := 0, mitig := MitigationFlags.Shield,
                       shield := { absorbed := absorbed, present := true } } } }

/-- A line whose mitigation set combines two flags (Shield and Deflect). -/
def c8MultiMitLine : CombatLine :=
  { source := { id := 1 }, target := { id := 2 },
    event := { type_id := EventType.ApplyEffect, action_id := EventActionType.Damage },
    tail := { kind := ValueKind.Numeric,
              val := { amount := 0,
                       mitig := MitigationFlags.Shield.lor MitigationFlags.Deflect } } }

/-- A registry holding a single tracked player, id 5. -/
def c10Mgr : EntityManager := { entities := [EntityState.ofEntity (mkPlayer 5)] }

/-- A concrete operation sequence in which entity 7 never sources a Damage
event: an `ApplyEffect`, a combat start, a Heal carrying threat, a combat
end. -/
def c9Ops : List RegistryOp :=
  [RegistryOp.line c7ApplyLine, RegistryOp.combatUpdate true,
   RegistryOp.line (c8HealLine 100), RegistryOp.combatUpdate false]

/-- The event core of the spec's `AreaEntered` boundary scenario. -/
def c6EventText : SV :=
  ("AreaEntered \x7b836045448953664\x7d: Dxun - The CI-004 Facility" ++
   " \x7b833571547775792\x7d 8 Player Master \x7b836045448953655\x7d").toList

/-- A complete `ModifyCharges` log line whose trailing region is the charges
group `(3 charges)`. -/
def c2FullLine : SV :=
  ("[00:00:01.000] [@A#1|(0,0,0,0)|(10/10)] [] [Force Barrier \x7b99\x7d]" ++
   " [ModifyCharges \x7b836045448953666\x7d: Force Barrier \x7b99\x7d] (3 charges)").toList

-- ===================== theorems =====================

/-- C2: the claim says a trailing `(3 charges)` group yields
`Trailing::Charges` with count 3.  The code disproves this: the fast path
`parse_trailing_fast_common` accepts the group as a numeric value with
amount 3 and school name `"charges"`, so `parse_trailing` returns
`ValueKind.Numeric` and the charges dispatcher is never consulted — even
though `parse_charges_group` itself would have produced 3.  The same holds
for a complete `ModifyCharges` line: `parse_combat_line` returns `Ok` with
`tail.kind = Numeric`, `charges = 0`. -/
theorem C2_charges_group_parsed_as_numeric :
    (parse_trailing "(3 charges)".toList).kind = ValueKind.Numeric ∧
    (parse_trailing "(3 charges)".toList).kind ≠ ValueKind.Charges ∧
    (parse_trailing "(3 charges)".toList).val.amount = 3 ∧
    (parse_trailing "(3 charges)".toList).val.school.name = "charges".toList ∧
    (parse_trailing "(3 charges)".toList).has_charges = false ∧
    (parse_trailing "(3 charges)".toList).charges = 0 ∧
    parse_charges_group "3 charges".toList = some 3 ∧
    (parse_combat_line c2FullLine).1 = ParseStatus.Ok ∧
    (parse_combat_line c2FullLine).2.tail.kind = ValueKind.Numeric ∧
    (parse_combat_line c2FullLine).2.tail.charges = 0 := by
  decide

/-- C6: the claim says `difficulty_value` is derived from `difficulty.id` by
the documented mapping (id 836045448953655 ↦ `Master_8`, distinct ids ↦
distinct kinds).  The code disproves this: `deduce_area_difficulty` ignores
its argument and returns `Solo` for every id, so the populated
`difficulty_value` of the spec's own `AreaEntered` example is `Solo`, not
`Master_8`, and no two ids are mapped apart. -/
theorem C6_difficulty_always_solo :
    deduce_area_difficulty 836045448953655 = AreaDifficulty.Solo ∧
    deduce_area_difficulty 836045448953655 ≠ AreaDifficulty.Master_8 ∧
    (∀ a b : Nat, deduce_area_difficulty a = deduce_area_difficulty b) ∧
    (parse_area_entered c6EventText "he3001".toList {}).1 = true ∧
    (parse_area_entered c6EventText "he3001".toList {}).2.difficulty.id = 836045448953655 ∧
    (parse_area_entered c6EventText "he3001".toList {}).2.has_difficulty = true ∧
    (parse_area_entered c6EventText "he3001".toList {}).2.difficulty_value = AreaDifficulty.Solo := by
  refine ⟨by decide, by decide, fun a b => rfl, by decide, by decide, by decide, by decide⟩

/-- C7: the claim says that for an `ApplyEffect` event (neither Damage nor
Heal) with a fresh effect, the target's `Effects` list gets the entry and
the *source's* `AppliedBy` list gets the symmetric entry.  The code
disproves the second half: the symmetric entry is pushed onto the
*target's* `AppliedBy` list (combat_state.cpp:252), leaving the source's
list empty; re-ingesting the same event updates the target entry in place
(no duplicate). -/
theorem C7_applied_by_lands_on_target :
    (((EntityManager.ParseLine {} c7ApplyLine).entityById 2).map
        (fun e => e.Effects.length) = some 1) ∧
    (((EntityManager.ParseLine {} c7ApplyLine).entityById 1).map
        (fun e => e.AppliedBy.length) = some 0) ∧
    (((EntityManager.ParseLine {} c7ApplyLine).entityById 2).map
        (fun e => e.AppliedBy.length) = some 1) ∧
    (((EntityManager.ParseLine {} c7ApplyLine).entityById 2).map
        (fun e => e.Effects.map (fun p => (p.id, p.source_id, p.target_id)))
        = some [(777, 1, 2)]) ∧
    ((((EntityManager.ParseLine {} c7ApplyLine).ParseLine c7ApplyLine).entityById 2).map
        (fun e => e.Effects.length) = some 1) := by
  decide

/-- C3: the claim says Death of the owner at epoch T, Revive at T + 2000 and
EnterCombat at T + 10000 stay in the same encounter (`last_combat_entered_`
unchanged), while EnterCombat at T + 20000 starts a new one.  The code
disproves the first half in the scenario as stated (here T = 50000 with the
fight entered at 1000 and two registered fighting players):
`combat_state_reset` leaves `all_players_dead = true` on combat entry, so
the owner's revive takes `in_combat_` to `false` and the later EnterCombat
always starts a new encounter.  The intended merge logic does exist and is
reached only when an earlier unrelated Revive has recomputed that stale
flag: then EnterCombat at T + 10000 keeps `last_combat_entered_ = 1000` and
at T + 20000 starts a new encounter. -/
theorem C3_revive_merge_window :
    (c3Run false 60000).last_combat_entered = 60000 ∧
    (c3Run false 60000).last_combat_entered ≠ 1000 ∧
    (c3Run false 70000).last_combat_entered = 70000 ∧
    (c3Run true 60000).last_combat_entered = 1000 ∧
    (c3Run true 70000).last_combat_entered = 70000 := by
  decide

/-- C5: with the base date initialized to epoch `E`, the events with
`combat_ms` 86399500, 600, 60000 receive `E + 86399500`, `E + 86400600`,
`E + 86460000`, and after the third event the rollover is committed:
`base_date_epoch_ms_ = E + 86400000` with `midnight_rollovers_detected`
incremented exactly once. -/
theorem C5_midnight_rollover_commit (E : Int) :
    (processRunMs (initializedTC E) [86399500, 600, 60000]).2 =
      [E + 86399500, E + 86400600, E + 86460000] ∧
    (processRunMs (initializedTC E) [86399500, 600, 60000]).1.base_date_epoch_ms
      = E + 86400000 ∧
    (processRunMs (initializedTC E) [86399500, 600, 60000]).1.stats.midnight_rollovers_detected
      = 1 := by
  refine ⟨?_, ?_, ?_⟩ <;>
    simp [processRunMs, TimeCruncher.processLine, TimeCruncher.processCore,
      TimeCruncher.initializeBaseDate,
      TimeCruncher.isAreaEntered, plainEventLine, CombatLine.matchesType,
      EventEffect.matchesType, EventType.AreaEntered, EventType.Event, initializedTC,
      TimeCruncher.calculateEpochMs, TimeCruncher.CloseToMidnightThreshold,
      MIDNIGHT_ROLLOVER_THRESHOLD_MS, MS_PER_DAY, TimeCruncher.handleMidnightRollover] <;>
    norm_num

/-- C10: `entity(uint64_t)` is a pure lookup — it returns a state already in
the list (with the requested id) or `none` exactly when no state has that
id, and the entity list is not represented in its result at all; whereas
`entity(Entity&)` leaves the list unchanged when the id is present and
otherwise appends exactly one new state built from the entity. -/
theorem C10_lookup_and_create (em : EntityManager) (ent : Entity) (i : Nat) :
    ((em.entityById i).isNone ↔ ∀ es ∈ em.entities, es.id ≠ i) ∧
    (∀ es, em.entityById i = some es → es ∈ em.entities ∧ es.id = i) ∧
    ((em.entityEnt ent).2.entities =
       if em.entities.any (fun es => es.id = ent.id) then em.entities
       else em.entities ++ [EntityState.ofEntity ent]) := by
  refine ⟨?_, ?_, ?_⟩
  · simp [EntityManager.entityById, Option.isNone_iff_eq_none, List.find?_eq_none]
  · intro es h
    unfold EntityManager.entityById at h
    exact ⟨List.mem_of_find?_eq_some h, by simpa using List.find?_some h⟩
  · unfold EntityManager.entityEnt
    cases h : em.entities.find? (fun es => es.id = ent.id) with
    | none =>
        have hany : em.entities.any (fun es => es.id = ent.id) = false := by
          rw [List.find?_eq_none] at h
          simp only [List.any_eq_false]
          intro x hx
          simpa using h x hx
        simp [hany]
    | some x =>
        have hany : em.entities.any (fun es => es.id = ent.id) = true := by
          rw [List.any_eq_true]
          exact ⟨x, List.mem_of_find?_eq_some h, by simpa using List.find?_some h⟩
        simp [hany]

/-- Witness for C10 at a concrete registry and entity. -/
theorem C10_lookup_and_create_witness :
    (c10Mgr.entityEnt (mkPlayer 7)).2.entities
      = c10Mgr.entities ++ [EntityState.ofEntity (mkPlayer 7)] := by
  rw [(C10_lookup_and_create c10Mgr (mkPlayer 7) 5).2.2]
  decide

/-- C4: the claim says a line on which `parse_combat_line` returns
`Malformed` is dropped — no stage observes it and the pipeline state is
unchanged.  The code disproves this: `process_line(std::string)` assigns the
parse status to a local and never examines it (parse_manager.cpp:58), so the
default-initialized record is fed through every stage; for the unparsable
line "garbage" the time cruncher still counts a processed line and the
entity registry grows a state for the phantom id 0. -/
theorem C4_malformed_line_not_dropped (ntp_now : Int) :
    (parse_combat_line "garbage".toList).1 = ParseStatus.Malformed ∧
    (plugin_manager.process_line_str ntp_now plugin_manager.init
        "garbage".toList).1.time_cruncher.stats.total_lines_processed = 1 ∧
    ((plugin_manager.process_line_str ntp_now plugin_manager.init
        "garbage".toList).1.entities.entities.map (fun e => e.id)) = [0] := by
  have hp : parse_combat_line "garbage".toList = (ParseStatus.Malformed, ({} : CombatLine)) := by
    decide
  refine ⟨by rw [hp], ?_, ?_⟩ <;>
  · simp only [plugin_manager.process_line_str, hp]
    simp [plugin_manager.process_line, plugin_manager.init, TimeCruncher.processLine,
      TimeCruncher.processCore,
      TimeCruncher.initializeBaseDate, TimeCruncher.isAreaEntered, TimeCruncher.set_Base_Date,
      TimeCruncher.calculateEpochMs, TimeCruncher.CloseToMidnightThreshold,
      MIDNIGHT_ROLLOVER_THRESHOLD_MS, MS_PER_DAY, CombatLine.matchesType,
      CombatLine.matchesAction, EventEffect.matchesType, EventEffect.matchesU64,
      EventType.AreaEntered, EventType.ApplyEffect, EventType.RemoveEffect,
      EventType.ModifyCharges, EventType.DisciplineChanged, EventActionType.EnterCombat,
      EventActionType.ExitCombat, EventActionType.Damage, EventActionType.Heal,
      EventActionType.Death, EventActionType.Revived, EventActionType.ModifyThreat,
      EventActionType.TargetSet, EventActionType.TargetCleared,
      CombatState.ParseLine, CombatState.resetAll, CombatState.combat_state_reset,
      CombatState.is_in_combat, EntityManager.combat_state_update,
      EntityManager.ParseLine, EntityManager.reset, resolveEntities, lastIdxWith,
      lastIdxWithAux, EntityState.ofEntity, entityOverwriteUpd, deathUpd, reviveUpd,
      damageUpd, healUpd, modifyThreatUpd, ownerUpd, targetSetUpd, targetClearedUpd,
      mitigUpd, applyEffectUpd, removeEffectUpd, modifyChargesUpd, modAt]

/-- For an initialized cruncher, `processLine` on a plain event line is
`processCore` on its `combat_ms`: the resulting state. -/
theorem processLine_plain_fst (tc : TimeCruncher) (c : Nat) (h : tc.initialized = true) :
    (TimeCruncher.processLine 0 tc (plainEventLine c)).1 = (tc.processCore c).1 := by
  simp [TimeCruncher.processLine, TimeCruncher.initializeBaseDate, TimeCruncher.isAreaEntered,
    plainEventLine, CombatLine.matchesType, EventEffect.matchesType, EventType.AreaEntered,
    EventType.Event, h]

/-- For an initialized cruncher, the `refined_epoch_ms` written by
`processLine` on a plain event line is the one `processCore` computes. -/
theorem processLine_plain_refined (tc : TimeCruncher) (c : Nat) (h : tc.initialized = true) :
    (TimeCruncher.processLine 0 tc (plainEventLine c)).2.t.refined_epoch_ms =
      (tc.processCore c).2 := by
  simp [TimeCruncher.processLine, TimeCruncher.initializeBaseDate, TimeCruncher.isAreaEntered,
    plainEventLine, CombatLine.matchesType, EventEffect.matchesType, EventType.AreaEntered,
    EventType.Event, h]

/-- The refined epoch computed by `processCore`. -/
theorem processCore_refined (tc : TimeCruncher) (c : Nat) :
    (tc.processCore c).2 =
      if tc.initialized = true ∧ (c : Int) < MIDNIGHT_ROLLOVER_THRESHOLD_MS * 2 ∧
         tc.midnight_close = true then
        tc.base_date_epoch_ms + ((MS_PER_DAY + (c : Int)).toNat % 2 ^ 32 : Nat)
      else tc.base_date_epoch_ms + (c : Int) := by
  simp only [TimeCruncher.processCore, TimeCruncher.calculateEpochMs,
    TimeCruncher.handleMidnightRollover] <;> (split_ifs <;> rfl)

/-- `processCore` leaves `initialized` untouched. -/
theorem processCore_initialized (tc : TimeCruncher) (c : Nat) :
    (tc.processCore c).1.initialized = tc.initialized := by
  simp only [TimeCruncher.processCore, TimeCruncher.calculateEpochMs,
    TimeCruncher.handleMidnightRollover] <;> (split_ifs <;> rfl)

/-- `processCore` records the processed `combat_ms`. -/
theorem processCore_last (tc : TimeCruncher) (c : Nat) :
    (tc.processCore c).1.last_processed_combat_ms = c := by
  simp only [TimeCruncher.processCore, TimeCruncher.calculateEpochMs,
    TimeCruncher.handleMidnightRollover] <;> (split_ifs <;> rfl)

/-- The midnight flag after `processCore`: armed above the threshold,
cleared on commit, otherwise unchanged. -/
theorem processCore_close (tc : TimeCruncher) (c : Nat) :
    (tc.processCore c).1.midnight_close =
      (if (c : Int) > TimeCruncher.CloseToMidnightThreshold then true
       else if tc.midnight_close = true ∧ (c : Int) > MIDNIGHT_ROLLOVER_THRESHOLD_MS / 2 ∧
               (c : Int) < TimeCruncher.CloseToMidnightThreshold then false
       else tc.midnight_close) := by
  simp only [TimeCruncher.processCore, TimeCruncher.calculateEpochMs,
    TimeCruncher.handleMidnightRollover] <;> (split_ifs <;> rfl)

/-- The base date after `processCore`: bumped one day exactly on commit. -/
theorem processCore_base (tc : TimeCruncher) (c : Nat) :
    (tc.processCore c).1.base_date_epoch_ms =
      (if (c : Int) > TimeCruncher.CloseToMidnightThreshold then tc.base_date_epoch_ms
       else if tc.midnight_close = true ∧ (c : Int) > MIDNIGHT_ROLLOVER_THRESHOLD_MS / 2 ∧
               (c : Int) < TimeCruncher.CloseToMidnightThreshold then
         tc.base_date_epoch_ms + MS_PER_DAY
       else tc.base_date_epoch_ms) := by
  simp only [TimeCruncher.processCore, TimeCruncher.calculateEpochMs,
    TimeCruncher.handleMidnightRollover] <;> (split_ifs <;> rfl)

set_option maxHeartbeats 1000000 in
/-- One reconstructor step from an invariant state along an admissible step
stays monotone and re-establishes the invariant. -/
theorem tcStep_good (tc : TimeCruncher) (R : Int) (c : Nat)
    (hg : goodStateTC tc R) (hs : okStepTC tc c) :
    R ≤ (tc.processCore c).2 ∧
    goodStateTC (tc.processCore c).1 (tc.processCore c).2 := by
  obtain ⟨hinit, hcase⟩ := hg
  obtain ⟨hday, hstep, hmid⟩ := hs
  simp only [TimeCruncher.CloseToMidnightThreshold,
    MIDNIGHT_ROLLOVER_THRESHOLD_MS, MS_PER_DAY] at hday hstep hmid hcase
  norm_num at hday hstep hmid hcase
  simp only [goodStateTC, processCore_refined, processCore_initialized, processCore_last,
    processCore_close, processCore_base, TimeCruncher.CloseToMidnightThreshold,
    MIDNIGHT_ROLLOVER_THRESHOLD_MS, MS_PER_DAY, hinit]
  norm_num
  rcases hcase with ⟨hc, hR, hb⟩ | ⟨hc, hb1, hb2, hR⟩ | ⟨hc, hb, hR⟩
  · rcases hstep with hstep | ⟨hstep1, hstep2⟩
    · simp only [hc, Bool.false_eq_true, and_false, false_and, if_false, ite_false, if_neg,
        not_false_iff, false_and, and_true, true_and, reduceIte]
      split_ifs <;> simp_all <;> omega
    · omega
  · simp only [hc, and_true, true_and]
    split_ifs <;> simp_all <;> omega
  · have hmid3 := hmid hc hb
    simp only [hc, and_true, true_and]
    split_ifs <;> simp_all <;> omega

/-- The emitted sequence of a tight run, prefixed by the last emitted value
of an invariant state, is non-decreasing. -/
theorem tcRun_good : ∀ (cs : List Nat) (tc : TimeCruncher) (R : Int),
    goodStateTC tc R → okRunTC tc cs →
    nonDecrB (R :: (processRunMs tc cs).2) = true := by
  intro cs
  induction cs with
  | nil => intro tc R _ _; simp [processRunMs, nonDecrB]
  | cons c cs ih =>
      intro tc R hg hr
      obtain ⟨hs, hrest⟩ := hr
      have hinit := hg.1
      obtain ⟨hmono, hg1⟩ := tcStep_good tc R c hg hs
      have hfst := processLine_plain_fst tc c hinit
      have hsnd := processLine_plain_refined tc c hinit
      have htail := ih (TimeCruncher.processLine 0 tc (plainEventLine c)).1
        (tc.processCore c).2 (by rw [hfst]; exact hg1) hrest
      simp only [processRunMs, hsnd]
      cases h2 : (processRunMs (TimeCruncher.processLine 0 tc (plainEventLine c)).1 cs).2 with
      | nil => simp [h2, nonDecrB, hmono]
      | cons b r =>
          rw [h2] at htail
          simp only [h2, nonDecrB, Bool.and_eq_true, decide_eq_true_eq] at htail ⊢
          exact ⟨hmono, htail⟩

/-- `nonDecrB` is preserved by dropping the head. -/
theorem nonDecrB_tail {a : Int} {l : List Int} (h : nonDecrB (a :: l) = true) :
    nonDecrB l = true := by
  cases l with
  | nil => rfl
  | cons b r => simpa [nonDecrB, Bool.and_eq_true] using (by
      simpa [nonDecrB, Bool.and_eq_true] using h : a ≤ b ∧ nonDecrB (b :: r) = true).2

/-- C1 (counterexample): the run `[86000000, 100]` is an ordered run in the
claim's sense — `combat_ms` decreases only across a midnight boundary — yet
the reconstructor (base date `E = 0`) assigns `[86000000, 100]`: the
pre-midnight event lies more than `MIDNIGHT_ROLLOVER_THRESHOLD_MS` before
midnight, so the rollover never arms and the emitted epochs decrease. -/
theorem C1_counterexample :
    orderedRunC1 [86000000, 100] = true ∧
    (processRunMs (initializedTC 0) [86000000, 100]).2 = [86000000, 100] ∧
    nonDecrB (processRunMs (initializedTC 0) [86000000, 100]).2 = false := by
  decide

/-- C1 (amended): for tight ordered runs — every midnight decrease starts
within `MIDNIGHT_ROLLOVER_THRESHOLD_MS` of midnight and lands below twice
the threshold, and after a crossing the first event past
`MIDNIGHT_ROLLOVER_THRESHOLD_MS / 2` also lands below twice the threshold —
the `refined_epoch_ms` sequence assigned by `processLine` is monotone
non-decreasing. -/
theorem C1_amended_monotone (E : Int) (cs : List Nat)
    (h : okRunTC (initializedTC E) cs) :
    nonDecrB (processRunMs (initializedTC E) cs).2 = true := by
  have hg : goodStateTC (initializedTC E) E := by
    refine ⟨rfl, Or.inl ⟨rfl, ?_, ?_⟩⟩ <;>
      simp [initializedTC, TimeCruncher.CloseToMidnightThreshold,
        MIDNIGHT_ROLLOVER_THRESHOLD_MS, MS_PER_DAY]
  exact nonDecrB_tail (tcRun_good cs (initializedTC E) E hg h)

/-- Witness for the amended C1 on the spec's own rollover scenario. -/
theorem C1_amended_monotone_witness :
    okRunTC (initializedTC 0) [86399500, 600, 60000] ∧
    nonDecrB (processRunMs (initializedTC 0) [86399500, 600, 60000]).2 = true :=
  ⟨by decide, C1_amended_monotone 0 [86399500, 600, 60000] (by decide)⟩

-- ===================== C9: damage-free entities =====================

/-- An element of a pointwise-modified list is an old element or the image of
the element at the modified index. -/
theorem mem_modAt {l : List EntityState} {i : Nat} {f : EntityState → EntityState}
    {x : EntityState} (hx : x ∈ modAt l i f) :
    x ∈ l ∨ ∃ y, l[i]? = some y ∧ x = f y := by
  unfold modAt at hx
  split at hx
  next a heq =>
    rcases List.mem_or_eq_of_mem_set hx with h1 | h1
    · exact Or.inl h1
    · exact Or.inr ⟨a, heq, h1⟩
  next heq => exact Or.inl hx

/-- `PDam` propagates through `modAt` when the written image still satisfies
it. -/
theorem pdam_of_mem_modAt {i : Nat} {l : List EntityState} {j : Nat}
    {f : EntityState → EntityState} {x : EntityState}
    (hx : x ∈ modAt l j f)
    (h : ∀ x ∈ l, PDam i x)
    (hf : ∀ y ∈ l, PDam i (f y)) : PDam i x := by
  rcases mem_modAt hx with h1 | ⟨y, hy, rfl⟩
  · exact h x h1
  · exact hf y (List.getElem?_mem hy)

/-- `PDam` propagates through `modAt` for a write that preserves it. -/
theorem pdam_of_mem_modAt_pres {i : Nat} {l : List EntityState} {j : Nat}
    {f : EntityState → EntityState} {x : EntityState}
    (hx : x ∈ modAt l j f)
    (h : ∀ x ∈ l, PDam i x) (hpres : ∀ y, PDam i y → PDam i (f y)) : PDam i x :=
  pdam_of_mem_modAt hx h (fun y hy => hpres y (h y hy))

/-- A write that keeps ids fixed does not change the id found at any
position. -/
theorem idmap_modAt {l : List EntityState} {i j : Nat} {f : EntityState → EntityState}
    (hf : ∀ y, (f y).id = y.id) :
    ((modAt l i f)[j]?).map EntityState.id = (l[j]?).map EntityState.id := by
  unfold modAt
  split
  next a heq =>
    rw [List.getElem?_set]
    by_cases hij : i = j
    · subst hij
      have hlt : i < l.length := by
        by_contra hc
        rw [List.getElem?_eq_none (Nat.le_of_not_lt hc)] at heq
        exact Option.noConfusion heq
      rw [if_pos rfl, if_pos hlt, heq]
      simp [hf]
    · rw [if_neg hij]
  next heq => rfl

/-- Appending on the right does not change the id found at an in-range
position. -/
theorem idmap_append_left {l l2 : List EntityState} {j v : Nat}
    (h : (l[j]?).map EntityState.id = some v) :
    ((l ++ l2)[j]?).map EntityState.id = some v := by
  have hlt : j < l.length := by
    by_contra hc
    rw [List.getElem?_eq_none (Nat.le_of_not_lt hc)] at h
    exact Option.noConfusion h
  rw [List.getElem?_append, if_pos hlt]
  exact h

/-- The index returned by the scan recursion points at a state with the
sought id. -/
theorem lastIdxWithAux_spec {idv : Nat} (l : List EntityState) :
    ∀ (k j : Nat), lastIdxWithAux idv l k = some j →
      k ≤ j ∧ (l[j - k]?).map EntityState.id = some idv := by
  induction l with
  | nil => intro k j h; simp [lastIdxWithAux] at h
  | cons e rest ih =>
      intro k j h
      unfold lastIdxWithAux at h
      split at h
      next j2 hr =>
        injection h with h2
        obtain ⟨hk, hget⟩ := ih (k + 1) j2 hr
        subst h2
        refine ⟨by omega, ?_⟩
        have h1 : j2 - k = (j2 - (k + 1)) + 1 := by omega
        rw [h1]
        simpa using hget
      next hr =>
        split at h
        next hid =>
          injection h with h2
          subst h2
          exact ⟨Nat.le_refl k, by simp [hid]⟩
        next hid => exact absurd h (by simp)

/-- The scan of `EntityManager::ParseLine` only ever yields the index of a
state carrying the sought id. -/
theorem lastIdxWith_spec {l : List EntityState} {idv j : Nat}
    (h : lastIdxWith l idv = some j) :
    (l[j]?).map EntityState.id = some idv := by
  obtain ⟨-, hget⟩ := lastIdxWithAux_spec l 0 j h
  simpa using hget

/-- Every state of the resolved list is an old state or one freshly built
from the line's source or target entity. -/
theorem resolve_mem {es0 : List EntityState} {line : CombatLine} {x : EntityState}
    (hx : x ∈ (resolveEntities es0 line).1) :
    x ∈ es0 ∨ x = EntityState.ofEntity line.source ∨ x = EntityState.ofEntity line.target := by
  unfold resolveEntities at hx
  dsimp only at hx
  split at hx
  · split at hx
    · exact Or.inl hx
    · split at hx
      · exact Or.inl hx
      · split at hx
        · rcases List.mem_append.mp hx with h1 | h1
          · exact Or.inl h1
          · exact Or.inr (Or.inr (List.mem_singleton.mp h1))
        · exact Or.inl hx
  · split at hx
    · rcases List.mem_append.mp hx with h1 | h1
      · exact Or.inl h1
      · exact Or.inr (Or.inl (List.mem_singleton.mp h1))
    · split at hx
      · rcases List.mem_append.mp hx with h1 | h1
        · exact Or.inl h1
        · exact Or.inr (Or.inl (List.mem_singleton.mp h1))
      · split at hx
        · rcases List.mem_append.mp hx with h1 | h1
          · rcases List.mem_append.mp h1 with h2 | h2
            · exact Or.inl h2
            · exact Or.inr (Or.inl (List.mem_singleton.mp h2))
          · exact Or.inr (Or.inr (List.mem_singleton.mp h1))
        · rcases List.mem_append.mp hx with h1 | h1
          · exact Or.inl h1
          · exact Or.inr (Or.inl (List.mem_singleton.mp h1))

/-- Resolution preserves `PDam`: fresh states start with zero counters. -/
theorem pdam_resolveEntities {i : Nat} (es0 : List EntityState) (line : CombatLine)
    (h : ∀ x ∈ es0, PDam i x) :
    ∀ x ∈ (resolveEntities es0 line).1, PDam i x := by
  intro x hx
  rcases resolve_mem hx with h1 | h1 | h1
  · exact h x h1
  · subst h1; intro _; rfl
  · subst h1; intro _; rfl

/-- The source index returned by resolution points at a state with the
source's id. -/
theorem resolve_sIdx_id (es0 : List EntityState) (line : CombatLine) :
    (((resolveEntities es0 line).1)[(resolveEntities es0 line).2.1]?).map EntityState.id
      = some line.source.id := by
  unfold resolveEntities
  dsimp only
  rcases hs : lastIdxWith es0 line.source.id with _ | j
  · have hbase :
        ((es0 ++ [EntityState.ofEntity line.source])[es0.length]?).map EntityState.id
          = some line.source.id := by
      rw [List.getElem?_concat_length]
      rfl
    dsimp only
    split
    · exact hbase
    · rcases ht : lastIdxWith es0 line.target.id with _ | j2
      · dsimp only
        split
        · exact idmap_append_left hbase
        · exact hbase
      · exact hbase
  · have hj := lastIdxWith_spec hs
    dsimp only
    split
    · exact hj
    · rcases ht : lastIdxWith es0 line.target.id with _ | j2
      · dsimp only
        split
        · exact idmap_append_left hj
        · exact hj
      · exact hj

/-- The entity-overwrite phase preserves `PDam` pointwise. -/
theorem pdam_entityOverwriteUpd {i : Nat} (line : CombatLine) (sIdx : Nat)
    (tIdx? : Option Nat) (l : List EntityState) (h : ∀ x ∈ l, PDam i x) :
    ∀ x ∈ entityOverwriteUpd line sIdx tIdx? l, PDam i x := by
  intro x hx
  unfold entityOverwriteUpd at hx
  dsimp only at hx
  cases tIdx? with
  | none => exact pdam_of_mem_modAt_pres hx h (fun y hy => hy)
  | some t =>
      exact pdam_of_mem_modAt_pres hx
        (fun z hz => pdam_of_mem_modAt_pres hz h (fun y hy => hy)) (fun y hy => hy)

/-- The Death phase preserves `PDam` pointwise. -/
theorem pdam_deathUpd {i : Nat} (line : CombatLine) (sIdx : Nat)
    (tIdx? : Option Nat) (l : List EntityState) (h : ∀ x ∈ l, PDam i x) :
    ∀ x ∈ deathUpd line sIdx tIdx? l, PDam i x := by
  intro x hx
  unfold deathUpd at hx
  split at hx
  · cases tIdx? with
    | some t => exact pdam_of_mem_modAt_pres hx h (fun y hy => hy)
    | none => exact h x hx
  · exact h x hx

/-- The Revived phase preserves `PDam` pointwise. -/
theorem pdam_reviveUpd {i : Nat} (line : CombatLine) (sIdx : Nat)
    (tIdx? : Option Nat) (l : List EntityState) (h : ∀ x ∈ l, PDam i x) :
    ∀ x ∈ reviveUpd line sIdx tIdx? l, PDam i x := by
  intro x hx
  unfold reviveUpd at hx
  split at hx
  · exact pdam_of_mem_modAt_pres hx h (fun y hy => hy)
  · exact h x hx

/-- The Damage phase keeps `PDam i` intact as long as the line's source does
not carry id `i`: the only damage-done write lands on the source index. -/
theorem pdam_damageUpd {i : Nat} (line : CombatLine) (sIdx : Nat)
    (tIdx? : Option Nat) (l : List EntityState) (h : ∀ x ∈ l, PDam i x)
    (hsid : (l[sIdx]?).map EntityState.id = some line.source.id)
    (hnd : ¬(line.matchesAction EventActionType.Damage = true ∧ line.source.id = i)) :
    ∀ x ∈ damageUpd line sIdx tIdx? l, PDam i x := by
  intro x hx
  unfold damageUpd at hx
  split at hx
  next hdmg =>
    have key : ∀ (y : EntityState), l[sIdx]? = some y → y.id = i → False := by
      intro y hy hid
      apply hnd
      refine ⟨hdmg, ?_⟩
      rw [hy] at hsid
      simp only [Option.map_some', Option.some.injEq] at hsid
      omega
    dsimp only at hx
    cases tIdx? with
    | none =>
        rcases mem_modAt hx with h1 | ⟨y, hy, rfl⟩
        · exact h x h1
        · exact fun hid => (key y hy hid).elim
    | some t =>
        refine pdam_of_mem_modAt_pres hx ?_ (fun y hy => hy)
        intro z hz
        rcases mem_modAt hz with h1 | ⟨y, hy, rfl⟩
        · exact h z h1
        · exact fun hid => (key y hy hid).elim
  next hdmg => exact h x hx

/-- The Heal phase preserves `PDam` pointwise. -/
theorem pdam_healUpd {i : Nat} (line : CombatLine) (sIdx : Nat)
    (tIdx? : Option Nat) (l : List EntityState) (h : ∀ x ∈ l, PDam i x) :
    ∀ x ∈ healUpd line sIdx tIdx? l, PDam i x := by
  intro x hx
  unfold healUpd at hx
  split at hx
  · dsimp only at hx
    cases tIdx? with
    | none => exact pdam_of_mem_modAt_pres hx h (fun y hy => hy)
    | some t =>
        exact pdam_of_mem_modAt_pres hx
          (fun z hz => pdam_of_mem_modAt_pres hz h (fun y hy => hy)) (fun y hy => hy)
  · exact h x hx

/-- The ModifyThreat phase preserves `PDam` pointwise. -/
theorem pdam_modifyThreatUpd {i : Nat} (line : CombatLine) (sIdx : Nat)
    (tIdx? : Option Nat) (l : List EntityState) (h : ∀ x ∈ l, PDam i x) :
    ∀ x ∈ modifyThreatUpd line sIdx tIdx? l, PDam i x := by
  intro x hx
  unfold modifyThreatUpd at hx
  split at hx
  · exact pdam_of_mem_modAt_pres hx h (fun y hy => hy)
  · exact h x hx

/-- The owner-marking phase preserves `PDam` pointwise. -/
theorem pdam_ownerUpd {i : Nat} (line : CombatLine) (sIdx : Nat)
    (tIdx? : Option Nat) (l : List EntityState) (h : ∀ x ∈ l, PDam i x) :
    ∀ x ∈ ownerUpd line sIdx tIdx? l, PDam i x := by
  intro x hx
  unfold ownerUpd at hx
  split at hx
  · exact pdam_of_mem_modAt_pres hx h (fun y hy => hy)
  · exact h x hx

/-- The TargetSet phase preserves `PDam` pointwise. -/
theorem pdam_targetSetUpd {i : Nat} (line : CombatLine) (sIdx : Nat)
    (tIdx? : Option Nat) (l : List EntityState) (h : ∀ x ∈ l, PDam i x) :
    ∀ x ∈ targetSetUpd line sIdx tIdx? l, PDam i x := by
  intro x hx
  unfold targetSetUpd at hx
  split at hx
  · cases tIdx? with
    | some t => exact pdam_of_mem_modAt_pres hx h (fun y hy => hy)
    | none => exact h x hx
  · exact h x hx

/-- The TargetCleared phase preserves `PDam` pointwise. -/
theorem pdam_targetClearedUpd {i : Nat} (line : CombatLine) (sIdx : Nat)
    (tIdx? : Option Nat) (l : List EntityState) (h : ∀ x ∈ l, PDam i x) :
    ∀ x ∈ targetClearedUpd line sIdx tIdx? l, PDam i x := by
  intro x hx
  unfold targetClearedUpd at hx
  split at hx
  · exact pdam_of_mem_modAt_pres hx h (fun y hy => hy)
  · exact h x hx

/-- The mitigation-counter phase preserves `PDam` pointwise. -/
theorem pdam_mitigUpd {i : Nat} (line : CombatLine) (sIdx : Nat)
    (tIdx? : Option Nat) (l : List EntityState) (h : ∀ x ∈ l, PDam i x) :
    ∀ x ∈ mitigUpd line sIdx tIdx? l, PDam i x := by
  intro x hx
  unfold mitigUpd at hx
  split_ifs at hx <;>
    first
      | exact h x hx
      | exact pdam_of_mem_modAt_pres hx h (fun y hy => hy)

/-- The ApplyEffect phase preserves `PDam` pointwise. -/
theorem pdam_applyEffectUpd {i : Nat} (line : CombatLine) (sIdx : Nat)
    (tIdx? : Option Nat) (l : List EntityState) (h : ∀ x ∈ l, PDam i x) :
    ∀ x ∈ applyEffectUpd line sIdx tIdx? l, PDam i x := by
  intro x hx
  unfold applyEffectUpd at hx
  split at hx
  · cases tIdx? with
    | none => exact h x hx
    | some t =>
        dsimp only at hx
        split at hx <;>
          exact pdam_of_mem_modAt_pres hx
            (fun z hz => pdam_of_mem_modAt_pres hz h (fun y hy => hy)) (fun y hy => hy)
  · exact h x hx

/-- The RemoveEffect phase preserves `PDam` pointwise. -/
theorem pdam_removeEffectUpd {i : Nat} (line : CombatLine) (sIdx : Nat)
    (tIdx? : Option Nat) (l : List EntityState) (h : ∀ x ∈ l, PDam i x) :
    ∀ x ∈ removeEffectUpd line sIdx tIdx? l, PDam i x := by
  intro x hx
  unfold removeEffectUpd at hx
  split at hx
  · cases tIdx? with
    | none => exact h x hx
    | some t =>
        dsimp only at hx
        exact pdam_of_mem_modAt_pres hx
          (fun z hz => pdam_of_mem_modAt_pres hz h (fun y hy => hy)) (fun y hy => hy)
  · exact h x hx

/-- The ModifyCharges phase preserves `PDam` pointwise. -/
theorem pdam_modifyChargesUpd {i : Nat} (line : CombatLine) (sIdx : Nat)
    (tIdx? : Option Nat) (l : List EntityState) (h : ∀ x ∈ l, PDam i x) :
    ∀ x ∈ modifyChargesUpd line sIdx tIdx? l, PDam i x := by
  intro x hx
  unfold modifyChargesUpd at hx
  split at hx
  · cases tIdx? with
    | none => exact h x hx
    | some t =>
        dsimp only at hx
        exact pdam_of_mem_modAt_pres hx
          (fun z hz => pdam_of_mem_modAt_pres hz h (fun y hy => hy)) (fun y hy => hy)
  · exact h x hx

/-- The entity-overwrite phase keeps every position's id. -/
theorem idmap_entityOverwriteUpd (line : CombatLine) (sIdx : Nat)
    (tIdx? : Option Nat) (l : List EntityState) (j : Nat) :
    ((entityOverwriteUpd line sIdx tIdx? l)[j]?).map EntityState.id
      = (l[j]?).map EntityState.id := by
  unfold entityOverwriteUpd
  dsimp only
  cases tIdx? with
  | none => exact idmap_modAt (fun y => rfl)
  | some t =>
      dsimp only
      rw [idmap_modAt, idmap_modAt] <;> exact fun y => rfl

/-- The Death phase keeps every position's id. -/
theorem idmap_deathUpd (line : CombatLine) (sIdx : Nat)
    (tIdx? : Option Nat) (l : List EntityState) (j : Nat) :
    ((deathUpd line sIdx tIdx? l)[j]?).map EntityState.id
      = (l[j]?).map EntityState.id := by
  unfold deathUpd
  split
  · cases tIdx? with
    | some t => exact idmap_modAt (fun y => rfl)
    | none => rfl
  · rfl

/-- The Revived phase keeps every position's id. -/
theorem idmap_reviveUpd (line : CombatLine) (sIdx : Nat)
    (tIdx? : Option Nat) (l : List EntityState) (j : Nat) :
    ((reviveUpd line sIdx tIdx? l)[j]?).map EntityState.id
      = (l[j]?).map EntityState.id := by
  unfold reviveUpd
  split
  · exact idmap_modAt (fun y => rfl)
  · rfl

/-- `EntityManager::ParseLine` preserves the damage-free invariant for an id
that is not the source of a Damage event. -/
theorem pdam_ParseLine {i : Nat} (em : EntityManager) (line : CombatLine)
    (h : ZeroDamageAt em i)
    (hnd : ¬(line.matchesAction EventActionType.Damage = true ∧ line.source.id = i)) :
    ZeroDamageAt (em.ParseLine line) i := by
  have hbase : ∀ x ∈
      (if line.matchesType EventType.AreaEntered then em.reset else em).entities,
      PDam i x := by
    by_cases hc : line.matchesType EventType.AreaEntered = true
    · rw [if_pos hc]
      intro x hx
      simp [EntityManager.reset] at hx
    · rw [if_neg hc]
      exact h
  intro x hx
  unfold EntityManager.ParseLine at hx
  dsimp only at hx
  refine pdam_modifyChargesUpd _ _ _ _ (pdam_removeEffectUpd _ _ _ _ (pdam_applyEffectUpd _ _ _ _
    (pdam_mitigUpd _ _ _ _ (pdam_targetClearedUpd _ _ _ _ (pdam_targetSetUpd _ _ _ _
    (pdam_ownerUpd _ _ _ _ (pdam_modifyThreatUpd _ _ _ _ (pdam_healUpd _ _ _ _
    (pdam_damageUpd _ _ _ _
      (pdam_reviveUpd _ _ _ _ (pdam_deathUpd _ _ _ _ (pdam_entityOverwriteUpd _ _ _ _
        (pdam_resolveEntities _ _ hbase))))
      ?_ hnd))))))))) x hx
  rw [idmap_reviveUpd, idmap_deathUpd, idmap_entityOverwriteUpd]
  exact resolve_sIdx_id _ _

/-- `new_combat_reset` zeroes every damage counter, so it preserves the
invariant outright. -/
theorem pdam_new_combat_reset {i : Nat} (em : EntityManager) :
    ZeroDamageAt em.new_combat_reset i := by
  intro x hx
  simp only [EntityManager.new_combat_reset, List.mem_map] at hx
  obtain ⟨y, _, rfl⟩ := hx
  intro _
  rfl

/-- `combat_state_update` preserves the damage-free invariant. -/
theorem pdam_combat_state_update {i : Nat} (em : EntityManager) (b : Bool)
    (h : ZeroDamageAt em i) : ZeroDamageAt (em.combat_state_update b) i := by
  unfold EntityManager.combat_state_update
  split
  · dsimp only
    split
    · exact pdam_new_combat_reset _
    · exact h
  · exact h

/-- Running any damage-free operation sequence preserves the invariant. -/
theorem pdam_applyOps (i : Nat) : ∀ (ops : List RegistryOp) (em : EntityManager),
    ZeroDamageAt em i → (∀ op ∈ ops, noDamageFrom i op) →
    ZeroDamageAt (applyOps em ops) i
  | [], _, h0, _ => h0
  | op :: ops, em, h0, hops => by
      have h1 : ZeroDamageAt (applyOp em op) i := by
        cases op with
        | line l => exact pdam_ParseLine em l h0 (hops _ (List.mem_cons_self _ _))
        | combatUpdate b => exact pdam_combat_state_update em b h0
      exact pdam_applyOps i ops (applyOp em op) h1
        (fun op2 h2 => hops op2 (List.mem_cons_of_mem _ h2))

/-- C9: at every point of any ingested operation sequence, an entity id that
never appears as the source of a Damage event since its counters were last
zero keeps `total_damage_done = 0` in every registry state carrying that
id. -/
theorem C9_damage_free_zero (ops : List RegistryOp) (i : Nat) (em : EntityManager)
    (h0 : ZeroDamageAt em i) (hops : ∀ op ∈ ops, noDamageFrom i op) :
    ZeroDamageAt (applyOps em ops) i :=
  pdam_applyOps i ops em h0 hops

/-- Witness for C9 on a concrete damage-free sequence and a fresh manager. -/
theorem C9_damage_free_zero_witness :
    ZeroDamageAt (applyOps {} c9Ops) 7 :=
  C9_damage_free_zero c9Ops 7 {} (by decide) (by decide)

-- ===================== C8: threat and mitigation attribution =====================

/-- A write that keeps a projection fixed does not change that projection at
any position. -/
theorem projmap_modAt {A : Type} (g : EntityState → A) {l : List EntityState}
    {i j : Nat} {f : EntityState → EntityState}
    (hf : ∀ y, g (f y) = g y) :
    ((modAt l i f)[j]?).map g = (l[j]?).map g := by
  unfold modAt
  split
  next a heq =>
    rw [List.getElem?_set]
    by_cases hij : i = j
    · subst hij
      have hlt : i < l.length := by
        by_contra hc
        rw [List.getElem?_eq_none (Nat.le_of_not_lt hc)] at heq
        exact Option.noConfusion heq
      rw [if_pos rfl, if_pos hlt, heq]
      simp [hf]
    · rw [if_neg hij]
  next heq => rfl

/-- Reading back the modified index after a `modAt` write. -/
theorem proj_modAt_self {A : Type} (g : EntityState → A) {l : List EntityState}
    {i : Nat} {f : EntityState → EntityState} {e : EntityState}
    (h : l[i]? = some e) :
    ((modAt l i f)[i]?).map g = some (g (f e)) := by
  have hlt : i < l.length := by
    by_contra hc
    rw [List.getElem?_eq_none (Nat.le_of_not_lt hc)] at h
    exact Option.noConfusion h
  unfold modAt
  rw [h]
  show ((l.set i (f e))[i]?).map g = some (g (f e))
  rw [List.getElem?_set_self hlt]
  rfl

/-- C8 counterexample: a Heal line carrying threat 100 leaves the source's
`total_threat` at 0 (the claim's regardless-of-action addition predicts 100),
and a Damage line carrying threat 27/10 adds 2, the uint64 truncation, where
the claim's `round` predicts 3. -/
theorem C8_counterexample :
    ((({} : EntityManager).ParseLine (c8HealLine 100)).entityById 1).map
        EntityState.total_threat = some 0 ∧
    ((({} : EntityManager).ParseLine (c8DmgLine ratTwoPoint7 100)).entityById 1).map
        EntityState.total_threat = some 2 := by
  decide

/-- C8 (amended): across the update blocks of `EntityManager::ParseLine`, the
source's `total_threat` grows by the uint64 truncation of the threat in the
Damage and ModifyThreat blocks only; the Heal block never touches it; the
mitigation counter is bumped only when the tail kind is set and the flag set
is exactly one flag (here Shield), and a combined flag set falls through with
no counter at all. -/
theorem C8_threat_attribution_amended (line : CombatLine) (l : List EntityState)
    (sIdx : Nat) (tIdx? : Option Nat) (e : EntityState) (h : l[sIdx]? = some e) :
    (((damageUpd line sIdx tIdx? l)[sIdx]?).map EntityState.total_threat =
      some (if line.matchesAction EventActionType.Damage = true then
              (e.total_threat + u64OfRat line.tail.threat) % 2 ^ 64
            else e.total_threat)) ∧
    (((modifyThreatUpd line sIdx tIdx? l)[sIdx]?).map EntityState.total_threat =
      some (if line.matchesAction EventActionType.ModifyThreat = true then
              (e.total_threat + u64OfRat line.tail.threat) % 2 ^ 64
            else e.total_threat)) ∧
    (((healUpd line sIdx tIdx? l)[sIdx]?).map EntityState.total_threat =
      some e.total_threat) ∧
    (line.tail.kind ≠ ValueKind.None → line.tail.val.mitig = MitigationFlags.Shield →
      ((mitigUpd line sIdx tIdx? l)[sIdx]?).map EntityState.total_shielding_done =
        some (u16inc e.total_shielding_done)) ∧
    (line.tail.val.mitig = MitigationFlags.Shield.lor MitigationFlags.Deflect →
      mitigUpd line sIdx tIdx? l = l) := by
  refine ⟨?_, ?_, ?_, ?_, ?_⟩
  · unfold damageUpd
    split
    next hdmg =>
      dsimp only
      cases tIdx? with
      | none => exact proj_modAt_self EntityState.total_threat h
      | some t =>
          rw [projmap_modAt EntityState.total_threat]
          · exact proj_modAt_self EntityState.total_threat h
          · exact fun y => rfl
    next hdmg =>
      rw [h]
      rfl
  · unfold modifyThreatUpd
    split
    next hmt => exact proj_modAt_self EntityState.total_threat h
    next hmt =>
      rw [h]
      rfl
  · unfold healUpd
    split
    next hheal =>
      dsimp only
      cases tIdx? with
      | none =>
          rw [projmap_modAt EntityState.total_threat]
          · rw [h]
            rfl
          · exact fun y => rfl
      | some t =>
          rw [projmap_modAt EntityState.total_threat]
          · rw [projmap_modAt EntityState.total_threat]
            · rw [h]
              rfl
            · exact fun y => rfl
          · exact fun y => rfl
    next hheal =>
      rw [h]
      rfl
  · intro hkind hsh
    unfold mitigUpd
    rw [if_pos hkind, if_pos hsh]
    exact proj_modAt_self EntityState.total_shielding_done h
  · intro hcomb
    unfold mitigUpd
    split
    next hkind =>
      have h3 : MitigationFlags.Shield.lor MitigationFlags.Deflect = 3 := by decide
      rw [hcomb, h3]
      simp [MitigationFlags.Shield, MitigationFlags.Deflect, MitigationFlags.Glance,
        MitigationFlags.Dodge, MitigationFlags.Parry, MitigationFlags.Resist,
        MitigationFlags.Miss, MitigationFlags.Immune]
    next hkind => rfl

/-- Witness for the amended C8 on a concrete Shield-mitigated Damage line over
a one-entity registry. -/
theorem C8_threat_attribution_amended_witness :
    (((damageUpd (c8ShieldLine 40) 0 none [EntityState.ofEntity (mkPlayer 1)])[0]?).map
        EntityState.total_threat = some 0) ∧
    (((mitigUpd (c8ShieldLine 40) 0 none [EntityState.ofEntity (mkPlayer 1)])[0]?).map
        EntityState.total_shielding_done = some 1) := by
  have hm := C8_threat_attribution_amended (c8ShieldLine 40)
    [EntityState.ofEntity (mkPlayer 1)] 0 none (EntityState.ofEntity (mkPlayer 1)) (by decide)
  rcases hm with ⟨h1, -, -, h4, -⟩
  constructor
  · rw [h1]
    decide
  · rw [h4 (by decide) (by decide)]
    decide

end Swtor
